import Mathlib

/-!
Shallow embedding of the photo-gallery backend (N0v4ont0p/render23).

The repository contains two parallel implementations:
* `src/src/routes/*.py` with `src/src/models/photo.py` — a database-backed
  blueprint (SQLAlchemy); embedded below in namespace `Routes`, with the
  database modelled as an explicit in-memory state (`DbState`) threaded
  through each handler.  Local database reads/writes are modelled as
  reliable state updates; calls to the remote media store (Cloudinary)
  are fallible and are modelled by explicit outcome oracles.
* `src/app.py` — a store-derived implementation that re-reads all state
  from Cloudinary on each request; embedded in namespace `App`, with the
  remote store modelled as an explicit state (`CloudState`).

HTTP responses are modelled as a status code plus a small JSON value type.
-/

/-- Minimal JSON value type used to model the bodies produced by
`flask.jsonify` in both implementations. -/
inductive Json where
  | jNull : Json
  | jBool : Bool → Json
  | jNat : Nat → Json
  | jStr : String → Json
  | jArr : List Json → Json
  | jObj : List (String × Json) → Json
deriving Repr

open Json

/-- Field lookup in a JSON object; `none` on non-objects and missing keys. -/
def jLookup : Json → String → Option Json
  | jObj l, k => (l.find? (fun p => p.1 == k)).map (fun p => p.2)
  | _, _ => none

/-- A response body follows the standard envelope when it is a JSON object
carrying a boolean `success` flag, and carries a string `error` message
whenever that flag is false. -/
def isEnvelope (j : Json) : Bool :=
  match jLookup j "success" with
  | some (jBool true) => true
  | some (jBool false) =>
    match jLookup j "error" with
    | some (jStr _) => true
    | _ => false
  | _ => false

/-- An HTTP response: status code plus JSON body. -/
structure Resp where
  status : Nat
  body : Json
deriving Repr

/-- Python `str.strip()`: drop leading and trailing whitespace.  Defined
structurally over the character list (rather than through
`String.trim`, whose auxiliary functions are not definitionally
reducible) so that concrete witnesses evaluate. -/
def pyStrip (s : String) : String :=
  ⟨((s.data.dropWhile Char.isWhitespace).reverse.dropWhile
      Char.isWhitespace).reverse⟩

/-- Python `str.lower()`, structurally over the character list. -/
def pyLower (s : String) : String :=
  ⟨s.data.map Char.toLower⟩

namespace Routes

/-- Row of the `collections` table (src/src/models/photo.py, class
`Collection`): integer primary key, unique name, creation timestamp. -/
structure Collection where
  id : Nat
  name : String
  created_at : String
deriving Repr, DecidableEq

/-- Row of the `photos` table (src/src/models/photo.py, class `Photo`).
`collection_id` is the nullable foreign key to `collections.id`. -/
structure Photo where
  id : Nat
  title : String
  description : String
  cloudinary_public_id : String
  cloudinary_url : String
  cloudinary_secure_url : String
  original_filename : String
  file_format : String
  file_size : Nat
  width : Nat
  height : Nat
  uploaded_at : String
  collection_id : Option Nat
deriving Repr, DecidableEq

/-- The relational database of the blueprint implementation: the two
tables. Primary keys are unique in any reachable database. -/
structure DbState where
  collections : List Collection
  photos : List Photo
deriving Repr, DecidableEq

/-- Collection.to_dict: the reported `photo_count` is `len(self.photos)`,
the number of photo rows whose foreign key currently equals this
collection's id — computed from the photo table, never stored. -/
def collectionToDict (s : DbState) (c : Collection) : Json :=
  jObj [("id", jNat c.id), ("name", jStr c.name),
        ("created_at", jStr c.created_at),
        ("photo_count", jNat ((s.photos.filter
          (fun p => p.collection_id == some c.id)).length))]

/-- Photo.to_dict: `collection_id` is the raw nullable foreign key;
`collection_name` is `self.collection_ref.name if self.collection_ref
else None`, i.e. the referenced collection's name when the row exists. -/
def photoToDict (s : DbState) (p : Photo) : Json :=
  jObj [("id", jNat p.id), ("title", jStr p.title),
        ("description", jStr p.description),
        ("cloudinary_public_id", jStr p.cloudinary_public_id),
        ("cloudinary_url", jStr p.cloudinary_url),
        ("cloudinary_secure_url", jStr p.cloudinary_secure_url),
        ("original_filename", jStr p.original_filename),
        ("file_format", jStr p.file_format),
        ("file_size", jNat p.file_size),
        ("width", jNat p.width),
        ("height", jNat p.height),
        ("uploaded_at", jStr p.uploaded_at),
        ("collection_id", match p.collection_id with
          | some cid => jNat cid
          | none => jNull),
        ("collection_name", match p.collection_id.bind
            (fun cid => (s.collections.find? (fun c => c.id == cid)).map
              (fun c => c.name)) with
          | some n => jStr n
          | none => jNull)]

/-- GET /collections (src/src/routes/collections.py, get_collections):
list all collections through `to_dict`. Ordering by creation date is
immaterial to the claims and kept as table order. -/
def get_collections (s : DbState) : Resp :=
  ⟨200, jObj [("success", jBool true),
              ("collections", jArr (s.collections.map (collectionToDict s)))]⟩

/-- Autoincrement primary key for a new `collections` row. -/
def nextCollectionId (cs : List Collection) : Nat :=
  (cs.foldl (fun m c => max m c.id) 0) + 1

/-- POST /collections (src/src/routes/collections.py, create_collection):
strip the name, reject empty with 400, reject an exact-match duplicate
(`filter_by(name=name)`) with 409, else insert and return 201. -/
def create_collection (s : DbState) (name now : String) : Resp × DbState :=
  let name := pyStrip name
  if name == "" then
    (⟨400, jObj [("success", jBool false),
                 ("error", jStr "Collection name is required")]⟩, s)
  else if (s.collections.find? (fun c => c.name == name)).isSome then
    (⟨409, jObj [("success", jBool false),
                 ("error", jStr "Collection with this name already exists")]⟩, s)
  else
    let c : Collection := ⟨nextCollectionId s.collections, name, now⟩
    let s2 : DbState := ⟨s.collections ++ [c], s.photos⟩
    (⟨201, jObj [("success", jBool true),
                 ("message", jStr "Collection created successfully"),
                 ("collection", collectionToDict s2 c)]⟩, s2)

/-- DELETE /collections/<id> (src/src/routes/collections.py,
delete_collection): 404 when absent; otherwise set `collection_id = None`
on every photo row referencing the collection, then delete the collection
row, in one transaction. -/
def delete_collection (s : DbState) (cid : Nat) : Resp × DbState :=
  match s.collections.find? (fun c => c.id == cid) with
  | none =>
    (⟨404, jObj [("success", jBool false),
                 ("error", jStr "Collection not found")]⟩, s)
  | some _ =>
    let n := (s.photos.filter (fun p => p.collection_id == some cid)).length
    let photos2 := s.photos.map (fun p =>
      if p.collection_id == some cid then { p with collection_id := none } else p)
    let s2 : DbState := ⟨s.collections.filter (fun c => !(c.id == cid)), photos2⟩
    (⟨200, jObj [("success", jBool true),
                 ("message", jStr ("Collection deleted successfully. " ++
                   toString n ++ " photos were unassigned from this collection."))]⟩,
     s2)

/-- PUT /collections/<id> (src/src/routes/collections.py,
update_collection): rename with 404 on a missing id, 400 on an empty
name, 409 when another collection already has the (exact) new name. -/
def update_collection (s : DbState) (cid : Nat) (name : String) : Resp × DbState :=
  match s.collections.find? (fun c => c.id == cid) with
  | none =>
    (⟨404, jObj [("success", jBool false),
                 ("error", jStr "Collection not found")]⟩, s)
  | some _ =>
    let new_name := pyStrip name
    if new_name == "" then
      (⟨400, jObj [("success", jBool false),
                   ("error", jStr "Collection name is required")]⟩, s)
    else if (s.collections.find?
        (fun c => c.name == new_name && !(c.id == cid))).isSome then
      (⟨409, jObj [("success", jBool false),
                   ("error", jStr "Collection with this name already exists")]⟩, s)
    else
      let cols2 := s.collections.map (fun c =>
        if c.id == cid then { c with name := new_name } else c)
      let s2 : DbState := ⟨cols2, s.photos⟩
      match cols2.find? (fun c => c.id == cid) with
      | some c2 =>
        (⟨200, jObj [("success", jBool true),
                     ("message", jStr "Collection updated successfully"),
                     ("collection", collectionToDict s2 c2)]⟩, s2)
      | none =>
        (⟨200, jObj [("success", jBool true),
                     ("message", jStr "Collection updated successfully")]⟩, s2)

/-- The `collection_id` value arriving in a JSON body or a form field:
absent/null, the empty string, or a number.  `truthy` models Python's
`collection_id and collection_id != ''` guard (0 is falsy in Python). -/
inductive CidInput where
  | cnull : CidInput
  | cempty : CidInput
  | cnum : Nat → CidInput
deriving Repr, DecidableEq

/-- Python truthiness of the guard `collection_id and collection_id != ''`. -/
def CidInput.truthy : CidInput → Bool
  | .cnull => false
  | .cempty => false
  | .cnum n => !(n == 0)

/-- The numeric id carried by a truthy input. -/
def CidInput.num : CidInput → Nat
  | .cnum n => n
  | _ => 0

/-- A file in a multipart upload request; only the filename is inspected
by the handlers (the bytes go straight to the media store). -/
structure UploadFile where
  filename : String
deriving Repr, DecidableEq

/-- The fields of a successful `cloudinary.uploader.upload` result that
the handlers read. -/
structure UploadResult where
  public_id : String
  url : String
  secure_url : String
  format : String
  bytes : Nat
  width : Nat
  height : Nat
deriving Repr, DecidableEq

/-- GET /photos (src/src/routes/photos.py, get_photos): optionally filter
by `collection_id`, return the rows through `to_dict` under the standard
envelope. -/
def get_photos (s : DbState) (cidFilter : Option Nat) : Resp :=
  let rows : List Photo := match cidFilter with
    | some cid => s.photos.filter (fun p => p.collection_id == some cid)
    | none => s.photos
  ⟨200, jObj [("success", jBool true),
              ("photos", jArr (rows.map (photoToDict s)))]⟩

/-- Autoincrement primary key for a new `photos` row. -/
def nextPhotoId (ps : List Photo) : Nat :=
  (ps.foldl (fun m p => max m p.id) 0) + 1

/-- The werkzeug `secure_filename` sanitiser, modelled as the identity:
its transformation of the name is external library behaviour that none
of the claims depend on. -/
def secureFilename (s : String) : String := s

/-- One pass of the upload loop of src/src/routes/photos.py
(upload_photos, lines 77-113): files are enumerated; a file with an empty
filename is skipped; the remote upload of file `i` is fallible (`oracle i
= none` models the raised exception, caught by the per-file
`try/except ... continue`); on success a photo row is built from the
upload result and queued for the database. -/
def uploadLoop (oracle : Nat → Option UploadResult)
    (titles descriptions : List String) (colId : Option Nat) (now : String) :
    Nat → Nat → List UploadFile → List Photo
  | _, _, [] => []
  | i, nid, f :: fs =>
    if f.filename == "" then uploadLoop oracle titles descriptions colId now (i + 1) nid fs
    else
      match oracle i with
      | none => uploadLoop oracle titles descriptions colId now (i + 1) nid fs
      | some res =>
        let title := match titles.get? i with
          | some t => if t == "" then secureFilename f.filename else t
          | none => secureFilename f.filename
        let descr := match descriptions.get? i with
          | some d => d
          | none => ""
        ({ id := nid, title := title, description := descr,
           cloudinary_public_id := res.public_id,
           cloudinary_url := res.url,
           cloudinary_secure_url := res.secure_url,
           original_filename := f.filename,
           file_format := res.format, file_size := res.bytes,
           width := res.width, height := res.height,
           uploaded_at := now, collection_id := colId } : Photo) ::
        uploadLoop oracle titles descriptions colId now (i + 1) (nid + 1) fs

/-- POST /photos (src/src/routes/photos.py, upload_photos): 400 when the
`files` field is absent or every filename is empty; 404 when a truthy
`collection_id` names no collection; otherwise each file is uploaded and
recorded independently via `uploadLoop` and the response reports the
success count and the succeeded photos. -/
def upload_photos (s : DbState) (files? : Option (List UploadFile))
    (titles descriptions : List String) (cid : CidInput)
    (oracle : Nat → Option UploadResult) (now : String) : Resp × DbState :=
  match files? with
  | none =>
    (⟨400, jObj [("success", jBool false),
                 ("error", jStr "No files provided")]⟩, s)
  | some files =>
    if files.isEmpty || files.all (fun f => f.filename == "") then
      (⟨400, jObj [("success", jBool false),
                   ("error", jStr "No files selected")]⟩, s)
    else
      let col? := if cid.truthy then
          s.collections.find? (fun c => c.id == cid.num) else none
      if cid.truthy && col?.isNone then
        (⟨404, jObj [("success", jBool false),
                     ("error", jStr "Collection not found")]⟩, s)
      else
        let colId := col?.map (fun c => c.id)
        let newPhotos := uploadLoop oracle titles descriptions colId now
          0 (nextPhotoId s.photos) files
        let s2 : DbState := ⟨s.collections, s.photos ++ newPhotos⟩
        (⟨200, jObj [("success", jBool true),
                     ("message", jStr ("Successfully uploaded " ++
                       toString newPhotos.length ++ " photos")),
                     ("photos", jArr (newPhotos.map (photoToDict s2)))]⟩, s2)

/-- DELETE /photos/<id> (src/src/routes/photos.py, delete_photo):
404 when the row is missing; the Cloudinary destroy call is attempted
and any failure (`destroyOk = false`) only logged; the row is deleted
from the database either way. -/
def delete_photo (s : DbState) (pid : Nat) (destroyOk : Bool) : Resp × DbState :=
  match s.photos.find? (fun p => p.id == pid) with
  | none =>
    (⟨404, jObj [("success", jBool false),
                 ("error", jStr "Photo not found")]⟩, s)
  | some _ =>
    let s2 : DbState := ⟨s.collections, s.photos.filter (fun p => !(p.id == pid))⟩
    (⟨200, jObj [("success", jBool true),
                 ("message", jStr "Photo deleted successfully")]⟩, s2)

/-- PUT /photos/<id>/collection (src/src/routes/photos.py,
update_photo_collection): 404 when the photo is missing; a truthy
`collection_id` must name an existing collection (404 otherwise) and is
assigned; any falsy value (null, empty string, 0) clears the foreign key
to `None`. -/
def update_photo_collection (s : DbState) (pid : Nat) (cid : CidInput) :
    Resp × DbState :=
  match s.photos.find? (fun p => p.id == pid) with
  | none =>
    (⟨404, jObj [("success", jBool false),
                 ("error", jStr "Photo not found")]⟩, s)
  | some _ =>
    if cid.truthy then
      match s.collections.find? (fun c => c.id == cid.num) with
      | none =>
        (⟨404, jObj [("success", jBool false),
                     ("error", jStr "Collection not found")]⟩, s)
      | some _ =>
        let photos2 := s.photos.map (fun p =>
          if p.id == pid then { p with collection_id := some cid.num } else p)
        let s2 : DbState := ⟨s.collections, photos2⟩
        match photos2.find? (fun p => p.id == pid) with
        | some p2 =>
          (⟨200, jObj [("success", jBool true),
                       ("message", jStr "Photo collection updated successfully"),
                       ("photo", photoToDict s2 p2)]⟩, s2)
        | none =>
          (⟨200, jObj [("success", jBool true),
                       ("message", jStr "Photo collection updated successfully")]⟩, s2)
    else
      let photos2 := s.photos.map (fun p =>
        if p.id == pid then { p with collection_id := none } else p)
      let s2 : DbState := ⟨s.collections, photos2⟩
      match photos2.find? (fun p => p.id == pid) with
      | some p2 =>
        (⟨200, jObj [("success", jBool true),
                     ("message", jStr "Photo collection updated successfully"),
                     ("photo", photoToDict s2 p2)]⟩, s2)
      | none =>
        (⟨200, jObj [("success", jBool true),
                     ("message", jStr "Photo collection updated successfully")]⟩, s2)

/-- PUT /photos/bulk-update (src/src/routes/photos.py,
bulk_update_photos): 400 on an empty id list; a truthy `collection_id`
must exist (404 otherwise); every photo row whose id is in the list gets
its foreign key set to the collection's id (or `None` when clearing);
the response reports the number of matched rows as `updated_count`. -/
def bulk_update_photos (s : DbState) (photo_ids : List Nat) (cid : CidInput) :
    Resp × DbState :=
  if photo_ids.isEmpty then
    (⟨400, jObj [("success", jBool false),
                 ("error", jStr "No photo IDs provided")]⟩, s)
  else
    let col? := if cid.truthy then
        s.collections.find? (fun c => c.id == cid.num) else none
    if cid.truthy && col?.isNone then
      (⟨404, jObj [("success", jBool false),
                   ("error", jStr "Collection not found")]⟩, s)
    else
      let target := col?.map (fun c => c.id)
      let matched := (s.photos.filter (fun p => photo_ids.contains p.id)).length
      let photos2 := s.photos.map (fun p =>
        if photo_ids.contains p.id then { p with collection_id := target } else p)
      let s2 : DbState := ⟨s.collections, photos2⟩
      (⟨200, jObj [("success", jBool true),
                   ("message", jStr ("Successfully updated " ++
                     toString matched ++ " photos")),
                   ("updated_count", jNat matched)]⟩, s2)

/-- DELETE /photos/bulk-delete (src/src/routes/photos.py,
bulk_delete_photos): 400 on an empty id list; Cloudinary destroy is
attempted per photo with failures (`destroyOk i = false`) only logged;
every matched row is then deleted from the database and the response
reports the matched count as `deleted_count`. -/
def bulk_delete_photos (s : DbState) (photo_ids : List Nat)
    (destroyOk : Nat → Bool) : Resp × DbState :=
  if photo_ids.isEmpty then
    (⟨400, jObj [("success", jBool false),
                 ("error", jStr "No photo IDs provided")]⟩, s)
  else
    let matched := (s.photos.filter (fun p => photo_ids.contains p.id)).length
    let photos2 := s.photos.filter (fun p => !(photo_ids.contains p.id))
    let s2 : DbState := ⟨s.collections, photos2⟩
    (⟨200, jObj [("success", jBool true),
                 ("message", jStr ("Successfully deleted " ++
                   toString matched ++ " photos")),
                 ("deleted_count", jNat matched)]⟩, s2)

end Routes

namespace App

/-- An image resource held by the remote media store, as the
store-derived implementation (src/app.py) sees it: a public id, a URL
and free-form string context metadata.  The Cloudinary context-update
call (`cloudinary.uploader.add_context`) is modelled as replacing the
stored context with the given key-value pairs, matching the handlers'
use of it to both set and clear the collection fields. -/
structure CloudResource where
  public_id : String
  secure_url : String
  context : List (String × String)
  created_at : String
  width : Nat
  height : Nat
  format : String
  bytes : Nat
deriving Repr, DecidableEq

/-- One entry of the collections registry file that src/app.py keeps as
a raw resource in Cloudinary: note that `photo_count` is a stored field
of the registry (written as 0 at creation). -/
structure RegCollection where
  id : Nat
  name : String
  created_at : String
  photo_count : Nat
deriving Repr, DecidableEq

/-- The remote store's state as seen by src/app.py: the collections
registry file plus all image resources. -/
structure CloudState where
  collections : List RegCollection
  resources : List CloudResource
deriving Repr, DecidableEq

/-- Python `context.get(key, default)` over the modelled context map. -/
def ctxGet (ctx : List (String × String)) (k dflt : String) : String :=
  match ctx.find? (fun p => p.1 == k) with
  | some p => p.2
  | none => dflt

/-- A photo as assembled by get_photos_from_cloudinary (src/app.py,
lines 91-125).  Every context field is read with `.get(key, '')` — an
absent value becomes the empty string — except the title, which
defaults to the public id. -/
structure AppPhoto where
  id : String
  url : String
  title : String
  description : String
  collection_id : String
  collection_name : String
  created_at : String
  width : Nat
  height : Nat
  format : String
  bytes : Nat
deriving Repr, DecidableEq

/-- get_photos_from_cloudinary (src/app.py): list every image resource
with its context metadata flattened into an `AppPhoto`. -/
def get_photos_from_cloudinary (s : CloudState) : List AppPhoto :=
  s.resources.map (fun r =>
    { id := r.public_id, url := r.secure_url,
      title := ctxGet r.context "title" r.public_id,
      description := ctxGet r.context "description" "",
      collection_id := ctxGet r.context "collection_id" "",
      collection_name := ctxGet r.context "collection_name" "",
      created_at := r.created_at, width := r.width, height := r.height,
      format := r.format, bytes := r.bytes })

/-- JSON rendering of an `AppPhoto` as jsonify produces it. -/
def appPhotoJson (p : AppPhoto) : Json :=
  jObj [("id", jStr p.id), ("url", jStr p.url), ("title", jStr p.title),
        ("description", jStr p.description),
        ("collection_id", jStr p.collection_id),
        ("collection_name", jStr p.collection_name),
        ("created_at", jStr p.created_at), ("width", jNat p.width),
        ("height", jNat p.height), ("format", jStr p.format),
        ("bytes", jNat p.bytes)]

/-- GET /api/photos (src/app.py, get_photos): returns the bare JSON
array of photos — no envelope on the success path. -/
def get_photos (s : CloudState) : Resp :=
  ⟨200, jArr ((get_photos_from_cloudinary s).map appPhotoJson)⟩

/-- The count src/app.py line 160 computes for a collection: the number
of photos whose `collection_id` context equals `str(collection['id'])`. -/
def countByCollection (s : CloudState) (cid : Nat) : Nat :=
  ((get_photos_from_cloudinary s).filter
    (fun p => p.collection_id == toString cid)).length

/-- GET /api/collections (src/app.py, get_collections): each registry
entry's `photo_count` key is overwritten with the freshly recomputed
count before the bare array is returned. -/
def get_collections (s : CloudState) : Resp :=
  ⟨200, jArr (s.collections.map (fun c =>
    jObj [("id", jNat c.id), ("name", jStr c.name),
          ("created_at", jStr c.created_at),
          ("photo_count", jNat (countByCollection s c.id))]))⟩

/-- GET /api/collections/<id>/photos (src/app.py,
get_collection_photos): bare array of the photos whose `collection_id`
context equals `str(collection_id)`. -/
def get_collection_photos (s : CloudState) (cid : Nat) : Resp :=
  ⟨200, jArr (((get_photos_from_cloudinary s).filter
    (fun p => p.collection_id == toString cid)).map appPhotoJson)⟩

/-- POST /api/collections (src/app.py, create_collection): empty name →
400; a name equal under `.lower()` to an existing one → 400 (not 409);
otherwise a new entry with id `len(collections) + 1` and stored
`photo_count` 0 is appended and saved (`saveOk` models the fallible
registry write; on failure the registry in the store is unchanged). -/
def create_collection (s : CloudState) (name now : String) (saveOk : Bool) :
    Resp × CloudState :=
  let name := pyStrip name
  if name == "" then
    (⟨400, jObj [("success", jBool false),
                 ("error", jStr "Collection name is required")]⟩, s)
  else if s.collections.any (fun c => pyLower c.name == pyLower name) then
    (⟨400, jObj [("success", jBool false),
                 ("error", jStr "Collection with this name already exists")]⟩, s)
  else
    let c : RegCollection := ⟨s.collections.length + 1, name, now, 0⟩
    if saveOk then
      (⟨200, jObj [("success", jBool true),
                   ("message", jStr ("Collection \"" ++ name ++
                     "\" created successfully!")),
                   ("collection", jObj [("id", jNat c.id), ("name", jStr c.name),
                     ("created_at", jStr c.created_at), ("photo_count", jNat 0)])]⟩,
       ⟨s.collections ++ [c], s.resources⟩)
    else
      (⟨500, jObj [("success", jBool false),
                   ("error", jStr "Failed to save collection to storage")]⟩, s)

/-- Context written when src/app.py clears a photo's collection fields
(delete_collection, lines 246-258): only the photo's current title and
description, with empty values dropped.  The title here is the
`AppPhoto` title, which already defaulted to the public id. -/
def clearedContext (p : AppPhoto) : List (String × String) :=
  (([("title", p.title), ("description", p.description)] :
    List (String × String)).filter (fun kv => !(kv.2 == "")))

/-- DELETE /api/collections/<id> (src/app.py, delete_collection):
pop the first registry entry with the id (404 when absent); for every
photo whose `collection_id` context equals `str(id)`, rewrite its
context without the collection fields (per-photo failures, `ctxOk
public_id = false`, are caught and leave that photo unchanged); finally
save the registry (`saveOk`) — when that write fails the photo contexts
stay mutated while the registry keeps the collection (no cross-store
transaction). -/
def delete_collection (s : CloudState) (cid : Nat)
    (ctxOk : String → Bool) (saveOk : Bool) : Resp × CloudState :=
  match s.collections.find? (fun c => c.id == cid) with
  | none =>
    (⟨404, jObj [("success", jBool false),
                 ("error", jStr "Collection not found")]⟩, s)
  | some col =>
    let collections2 := s.collections.eraseP (fun c => c.id == cid)
    let resources2 := s.resources.map (fun r =>
      let p := { id := r.public_id, url := r.secure_url,
                 title := ctxGet r.context "title" r.public_id,
                 description := ctxGet r.context "description" "",
                 collection_id := ctxGet r.context "collection_id" "",
                 collection_name := ctxGet r.context "collection_name" "",
                 created_at := r.created_at, width := r.width,
                 height := r.height, format := r.format, bytes := r.bytes :
                 AppPhoto }
      if p.collection_id == toString cid && ctxOk r.public_id then
        { r with context := clearedContext p }
      else r)
    if saveOk then
      (⟨200, jObj [("success", jBool true),
                   ("message", jStr ("Collection \"" ++ col.name ++
                     "\" deleted successfully!"))]⟩,
       ⟨collections2, resources2⟩)
    else
      (⟨500, jObj [("success", jBool false),
                   ("error", jStr "Failed to save changes to storage")]⟩,
       ⟨s.collections, resources2⟩)

/-- The fields of a successful Cloudinary image upload that src/app.py
reads back. -/
structure UploadOut where
  secure_url : String
  width : Nat
  height : Nat
  format : String
  bytes : Nat
deriving Repr, DecidableEq

/-- Context attached at upload time (src/app.py upload_photos, lines
305-317): title defaulting to the filename, description, and the
collection fields when both form values are truthy; empty values are
then dropped.  No check that the collection exists is made. -/
def uploadContext (title description collection_id collection_name
    filename : String) : List (String × String) :=
  let base : List (String × String) :=
    [("title", if title == "" then filename else title),
     ("description", description)]
  let base := if !(collection_id == "") && !(collection_name == "") then
      base ++ [("collection_id", collection_id),
               ("collection_name", collection_name)]
    else base
  base.filter (fun kv => !(kv.2 == ""))

/-- Upload loop of src/app.py (upload_photos, lines 299-340): files with
an empty filename are skipped; `oracle i = none` models a raised
exception on file `i`, caught by the per-file `try/except ... continue`;
`pubIdGen i` models the timestamp/uuid public id generated for file
`i`. -/
def appUploadLoop (oracle : Nat → Option UploadOut) (pubIdGen : Nat → String)
    (title description collection_id collection_name : String) :
    Nat → List Routes.UploadFile → List CloudResource
  | _, [] => []
  | i, f :: fs =>
    if f.filename == "" then
      appUploadLoop oracle pubIdGen title description collection_id
        collection_name (i + 1) fs
    else
      match oracle i with
      | none =>
        appUploadLoop oracle pubIdGen title description collection_id
          collection_name (i + 1) fs
      | some out =>
        ({ public_id := pubIdGen i, secure_url := out.secure_url,
           context := uploadContext title description collection_id
             collection_name f.filename,
           created_at := "", width := out.width, height := out.height,
           format := out.format, bytes := out.bytes } : CloudResource) ::
        appUploadLoop oracle pubIdGen title description collection_id
          collection_name (i + 1) fs

/-- Response entry for one uploaded photo (src/app.py, lines 327-334):
the context fields read back with `.get(key, '')`. -/
def uploadedPhotoJson (r : CloudResource) : Json :=
  jObj [("id", jStr r.public_id), ("url", jStr r.secure_url),
        ("title", jStr (ctxGet r.context "title" "")),
        ("description", jStr (ctxGet r.context "description" "")),
        ("collection_id", jStr (ctxGet r.context "collection_id" "")),
        ("collection_name", jStr (ctxGet r.context "collection_name" ""))]

/-- POST /api/photos (src/app.py, upload_photos): 400 when the `photos`
field is absent; each file is uploaded independently; when no file
succeeds the whole request is reported as a single failure (500).
Form values arrive stripped of surrounding whitespace. -/
def upload_photos (s : CloudState) (files? : Option (List Routes.UploadFile))
    (title description collection_id collection_name : String)
    (oracle : Nat → Option UploadOut) (pubIdGen : Nat → String) :
    Resp × CloudState :=
  match files? with
  | none =>
    (⟨400, jObj [("success", jBool false),
                 ("error", jStr "No photos provided")]⟩, s)
  | some files =>
    let uploaded := appUploadLoop oracle pubIdGen (pyStrip title) (pyStrip description)
      (pyStrip collection_id) (pyStrip collection_name) 0 files
    if uploaded.isEmpty then
      (⟨500, jObj [("success", jBool false),
                   ("error", jStr "No photos were uploaded successfully")]⟩,
       ⟨s.collections, s.resources ++ uploaded⟩)
    else
      (⟨200, jObj [("success", jBool true),
                   ("message", jStr ("Successfully uploaded " ++
                     toString uploaded.length ++ " photo(s)!")),
                   ("photos", jArr (uploaded.map uploadedPhotoJson))]⟩,
       ⟨s.collections, s.resources ++ uploaded⟩)

/-- DELETE /api/photos/<id> (src/app.py, delete_photo): a single
`cloudinary.uploader.destroy` call; `Except.error` models a raised
exception (caught, 500), `Except.ok r` the returned result string (`"ok"`
→ 200, anything else → 500).  The second component of the result counts
the destroy calls made while serving the request. -/
def delete_photo (pid : String) (outcome : Except String String) : Resp × Nat :=
  match outcome with
  | .ok r =>
    if r == "ok" then
      (⟨200, jObj [("success", jBool true),
                   ("message", jStr "Photo deleted successfully!")]⟩, 1)
    else
      (⟨500, jObj [("success", jBool false),
                   ("error", jStr "Failed to delete photo from storage")]⟩, 1)
  | .error e =>
    (⟨500, jObj [("success", jBool false),
                 ("error", jStr ("Failed to delete photo: " ++ e))]⟩, 1)

/-- The string Python's `str(collection_id)` produces for a truthy
JSON `collection_id`. -/
def CidInput.str : Routes.CidInput → String
  | .cnum n => toString n
  | _ => ""

/-- PUT /api/photos/<id>/collection (src/app.py,
update_photo_collection): 404 when the resource is missing; the new
context keeps the current title and description and carries the
collection fields only when both `collection_id` and `collection_name`
are truthy — no check that the collection exists is made; `ctxOk`
models the fallible context update (failure → 500, state unchanged). -/
def update_photo_collection (s : CloudState) (pid : String)
    (cid : Routes.CidInput) (cname : String) (ctxOk : Bool) :
    Resp × CloudState :=
  match s.resources.find? (fun r => r.public_id == pid) with
  | none =>
    (⟨404, jObj [("success", jBool false),
                 ("error", jStr "Photo not found")]⟩, s)
  | some r =>
    let ctx2 : List (String × String) :=
      (([("title", ctxGet r.context "title" ""),
         ("description", ctxGet r.context "description" "")] :
        List (String × String)) ++
       (if cid.truthy && !(cname == "") then
          [("collection_id", CidInput.str cid), ("collection_name", cname)]
        else [])).filter (fun kv => !(kv.2 == ""))
    if ctxOk then
      let resources2 := s.resources.map (fun q =>
        if q.public_id == pid then { q with context := ctx2 } else q)
      let action := if cid.truthy then
          "added to collection '" ++ cname ++ "'"
        else "removed from collection"
      (⟨200, jObj [("success", jBool true),
                   ("message", jStr ("Photo " ++ action ++ " successfully!"))]⟩,
       ⟨s.collections, resources2⟩)
    else
      (⟨500, jObj [("success", jBool false),
                   ("error", jStr "Failed to update photo collection")]⟩, s)

end App

namespace Auth

/-- The admin session state: `session.get('admin_logged_in', False)`. -/
abbrev Session := Bool

/-- require_admin_auth (src/src/routes/auth.py, lines 67-79): a
decorator that rejects a request with 401 unless the session is marked
as admin-logged-in.  It is defined by the repository but applied to no
route. -/
def require_admin_auth {α : Type} (f : Session → α → Resp) :
    Session → α → Resp :=
  fun session x =>
    if session then f session x
    else ⟨401, jObj [("success", jBool false),
                     ("error", jStr "Admin authentication required")]⟩

end Auth

namespace Routes

/-- The upload route as registered on the blueprint: the undecorated
`upload_photos` handler, running with whatever admin-session state the
request carries and never reading it. -/
def upload_photos_route (session : Auth.Session) (s : DbState)
    (files? : Option (List UploadFile)) (titles descriptions : List String)
    (cid : CidInput) (oracle : Nat → Option UploadResult) (now : String) :
    Resp × DbState :=
  upload_photos s files? titles descriptions cid oracle now

/-- The collection-creation route as registered on the blueprint: the
undecorated `create_collection` handler, never reading the session. -/
def create_collection_route (session : Auth.Session) (s : DbState)
    (name now : String) : Resp × DbState :=
  create_collection s name now

/-- One mutating request against the database-backed implementation. -/
inductive DbOp where
  | opCreateCollection (name now : String)
  | opUpdateCollection (cid : Nat) (name : String)
  | opDeleteCollection (cid : Nat)
  | opUploadPhotos (files? : Option (List UploadFile))
      (titles descriptions : List String) (cid : CidInput)
      (oracle : Nat → Option UploadResult) (now : String)
  | opDeletePhoto (pid : Nat) (destroyOk : Bool)
  | opUpdatePhotoCollection (pid : Nat) (cid : CidInput)
  | opBulkUpdate (ids : List Nat) (cid : CidInput)
  | opBulkDelete (ids : List Nat) (destroyOk : Nat → Bool)

/-- The database state reached by serving one request. -/
def dbStep (op : DbOp) (s : DbState) : DbState :=
  match op with
  | .opCreateCollection name now => (create_collection s name now).2
  | .opUpdateCollection cid name => (update_collection s cid name).2
  | .opDeleteCollection cid => (delete_collection s cid).2
  | .opUploadPhotos files? titles descriptions cid oracle now =>
    (upload_photos s files? titles descriptions cid oracle now).2
  | .opDeletePhoto pid destroyOk => (delete_photo s pid destroyOk).2
  | .opUpdatePhotoCollection pid cid => (update_photo_collection s pid cid).2
  | .opBulkUpdate ids cid => (bulk_update_photos s ids cid).2
  | .opBulkDelete ids destroyOk => (bulk_delete_photos s ids destroyOk).2

/-- Referential integrity of the photo table: every non-null
`collection_id` foreign key names a row of the collections table. -/
def refsValid (s : DbState) : Bool :=
  s.photos.all (fun p =>
    (Option.all (fun cid => s.collections.any (fun c => c.id == cid)))
      p.collection_id)

end Routes

namespace App

/-- Referential integrity of the store-derived implementation: every
nonempty `collection_id` context value equals `str(id)` of some entry of
the collections registry. -/
def cloudRefsValid (s : CloudState) : Bool :=
  s.resources.all (fun r =>
    let cid := ctxGet r.context "collection_id" ""
    cid == "" || s.collections.any (fun c => toString c.id == cid))

end App

namespace Routes

/-- Number of files of a multi-file upload that succeed, counted
per file from that file's own name and its own remote outcome alone —
whether file `i` is counted never depends on any other file. -/
def countSucc (oracle : Nat → Option UploadResult) :
    Nat → List UploadFile → Nat
  | _, [] => 0
  | i, f :: fs =>
    (if f.filename == "" then 0 else if (oracle i).isSome then 1 else 0) +
    countSucc oracle (i + 1) fs

end Routes

/-- Elements of a JSON array; empty for non-arrays. -/
def jItems : Json → List Json
  | jArr l => l
  | _ => []

/-- C9 counterexample: a transiently failing destroy call (modelled as a
raised network exception) is given exactly one attempt — not the two or
more attempts a bounded-retry policy requires — and the failure is
surfaced to the caller as a 500 immediately.  This refutes the claim
that failing remote calls are retried with backoff before being
surfaced. -/
theorem remote_failure_not_retried :
    (App.delete_photo "photo_x" (Except.error "connection timed out")).2 = 1 ∧
    ¬ 2 ≤ (App.delete_photo "photo_x" (Except.error "connection timed out")).2 ∧
    (App.delete_photo "photo_x" (Except.error "connection timed out")).1.status = 500 :=
  ⟨rfl, by decide, rfl⟩

/-- C9 amended: every delete request makes exactly one destroy call
against the remote media store, whatever the outcome; any non-`ok`
outcome (transient exception or definitive not-found result alike) is
surfaced to the caller as a 500 at once, with no retry and no backoff. -/
theorem delete_photo_single_attempt (pid : String)
    (outcome : Except String String) :
    (App.delete_photo pid outcome).2 = 1 ∧
    ((App.delete_photo pid outcome).1.status = 200 ∨
      (App.delete_photo pid outcome).1.status = 500) ∧
    ((App.delete_photo pid outcome).1.status = 200 ↔
      outcome = Except.ok "ok") := by
  cases outcome with
  | error e => simp [App.delete_photo]
  | ok r =>
    by_cases h : r = "ok"
    · subst h; simp [App.delete_photo]
    · have hb : (r == "ok") = false := by simpa using h
      simp [App.delete_photo, hb, h]

/-- C10: the mutation routes are registered without the
`require_admin_auth` decorator, so their responses are identical across
any two admin-session states and are never the decorator's 401
rejection — while the decorator itself, had it been applied, would
reject every request of a logged-out session with 401. -/
theorem routes_independent_of_admin_session :
    (∀ (s1 s2 : Auth.Session) (st : Routes.DbState)
        (files? : Option (List Routes.UploadFile))
        (titles descriptions : List String) (cid : Routes.CidInput)
        (oracle : Nat → Option Routes.UploadResult) (now : String),
      Routes.upload_photos_route s1 st files? titles descriptions cid oracle now =
      Routes.upload_photos_route s2 st files? titles descriptions cid oracle now) ∧
    (∀ (s1 s2 : Auth.Session) (st : Routes.DbState) (name now : String),
      Routes.create_collection_route s1 st name now =
      Routes.create_collection_route s2 st name now) ∧
    (∀ (session : Auth.Session) (st : Routes.DbState)
        (files? : Option (List Routes.UploadFile))
        (titles descriptions : List String) (cid : Routes.CidInput)
        (oracle : Nat → Option Routes.UploadResult) (now : String),
      (Routes.upload_photos_route session st files? titles descriptions
        cid oracle now).1.status ≠ 401) ∧
    (∀ (session : Auth.Session) (st : Routes.DbState) (name now : String),
      (Routes.create_collection_route session st name now).1.status ≠ 401) ∧
    (∀ (α : Type) (f : Auth.Session → α → Resp) (x : α),
      (Auth.require_admin_auth f false x).status = 401) := by
  refine ⟨fun _ _ _ _ _ _ _ _ _ => rfl, fun _ _ _ _ _ => rfl, ?_, ?_, ?_⟩
  · intro session st files? titles descriptions cid oracle now
    unfold Routes.upload_photos_route
    cases files? with
    | none => simp [Routes.upload_photos]
    | some files =>
      simp only [Routes.upload_photos]
      repeat' split
      all_goals simp
  · intro session st name now
    unfold Routes.create_collection_route
    simp only [Routes.create_collection]
    repeat' split
    all_goals simp
  · intro α f x
    rfl

/-- C8 counterexample: the store-derived implementation's list
endpoints — GET /api/photos, GET /api/collections and GET
/api/collections/<id>/photos — return a bare JSON array on the
success path, with no `success` flag at all, refuting the claim that
every response body carries the boolean-success envelope. -/
theorem app_list_endpoints_lack_envelope :
    isEnvelope (App.get_photos ⟨[⟨1, "Vacation", "t0", 0⟩],
      [⟨"p1", "u1", [("title", "T")], "t1", 10, 10, "jpg", 5⟩]⟩).body = false ∧
    isEnvelope (App.get_collections ⟨[⟨1, "Vacation", "t0", 0⟩],
      [⟨"p1", "u1", [("title", "T")], "t1", 10, 10, "jpg", 5⟩]⟩).body = false ∧
    isEnvelope (App.get_collection_photos ⟨[⟨1, "Vacation", "t0", 0⟩],
      [⟨"p1", "u1", [("title", "T")], "t1", 10, 10, "jpg", 5⟩]⟩ 1).body = false :=
  ⟨rfl, rfl, rfl⟩

/-- C8 amended: every handler of the database-backed blueprints, and
every mutation handler of the store-derived implementation, answers —
for every input and on every branch — with a JSON object carrying a
boolean `success` flag and, whenever that flag is false, a string
`error` message; only the store-derived list endpoints return a bare
array on success. -/
theorem blueprint_responses_always_enveloped :
    (∀ (s : Routes.DbState) (cf : Option Nat),
      isEnvelope (Routes.get_photos s cf).body = true) ∧
    (∀ (s : Routes.DbState), isEnvelope (Routes.get_collections s).body = true) ∧
    (∀ (s : Routes.DbState) (name now : String),
      isEnvelope (Routes.create_collection s name now).1.body = true) ∧
    (∀ (s : Routes.DbState) (cid : Nat),
      isEnvelope (Routes.delete_collection s cid).1.body = true) ∧
    (∀ (s : Routes.DbState) (cid : Nat) (name : String),
      isEnvelope (Routes.update_collection s cid name).1.body = true) ∧
    (∀ (s : Routes.DbState) (files? : Option (List Routes.UploadFile))
        (titles descriptions : List String) (cid : Routes.CidInput)
        (oracle : Nat → Option Routes.UploadResult) (now : String),
      isEnvelope (Routes.upload_photos s files? titles descriptions
        cid oracle now).1.body = true) ∧
    (∀ (s : Routes.DbState) (pid : Nat) (destroyOk : Bool),
      isEnvelope (Routes.delete_photo s pid destroyOk).1.body = true) ∧
    (∀ (s : Routes.DbState) (pid : Nat) (cid : Routes.CidInput),
      isEnvelope (Routes.update_photo_collection s pid cid).1.body = true) ∧
    (∀ (s : Routes.DbState) (ids : List Nat) (cid : Routes.CidInput),
      isEnvelope (Routes.bulk_update_photos s ids cid).1.body = true) ∧
    (∀ (s : Routes.DbState) (ids : List Nat) (destroyOk : Nat → Bool),
      isEnvelope (Routes.bulk_delete_photos s ids destroyOk).1.body = true) ∧
    (∀ (s : App.CloudState) (name now : String) (saveOk : Bool),
      isEnvelope (App.create_collection s name now saveOk).1.body = true) ∧
    (∀ (s : App.CloudState) (cid : Nat) (ctxOk : String → Bool) (saveOk : Bool),
      isEnvelope (App.delete_collection s cid ctxOk saveOk).1.body = true) ∧
    (∀ (s : App.CloudState) (files? : Option (List Routes.UploadFile))
        (title description collection_id collection_name : String)
        (oracle : Nat → Option App.UploadOut) (pubIdGen : Nat → String),
      isEnvelope (App.upload_photos s files? title description collection_id
        collection_name oracle pubIdGen).1.body = true) ∧
    (∀ (pid : String) (outcome : Except String String),
      isEnvelope (App.delete_photo pid outcome).1.body = true) ∧
    (∀ (s : App.CloudState) (pid : String) (cid : Routes.CidInput)
        (cname : String) (ctxOk : Bool),
      isEnvelope (App.update_photo_collection s pid cid cname ctxOk).1.body = true) := by
  refine ⟨fun s cf => rfl, fun s => rfl, ?_, ?_, ?_, ?_, ?_, ?_, ?_, ?_, ?_, ?_, ?_, ?_, ?_⟩
  · intro s name now
    simp only [Routes.create_collection]
    repeat' split
    all_goals rfl
  · intro s cid
    simp only [Routes.delete_collection]
    repeat' split
    all_goals rfl
  · intro s cid name
    simp only [Routes.update_collection]
    repeat' split
    all_goals rfl
  · intro s files? titles descriptions cid oracle now
    cases files? with
    | none => rfl
    | some files =>
      simp only [Routes.upload_photos]
      repeat' split
      all_goals rfl
  · intro s pid destroyOk
    simp only [Routes.delete_photo]
    repeat' split
    all_goals rfl
  · intro s pid cid
    simp only [Routes.update_photo_collection]
    repeat' split
    all_goals rfl
  · intro s ids cid
    simp only [Routes.bulk_update_photos]
    repeat' split
    all_goals rfl
  · intro s ids destroyOk
    simp only [Routes.bulk_delete_photos]
    repeat' split
    all_goals rfl
  · intro s name now saveOk
    simp only [App.create_collection]
    repeat' split
    all_goals rfl
  · intro s cid ctxOk saveOk
    simp only [App.delete_collection]
    repeat' split
    all_goals rfl
  · intro s files? title description collection_id collection_name oracle pubIdGen
    cases files? with
    | none => rfl
    | some files =>
      simp only [App.upload_photos]
      repeat' split
      all_goals rfl
  · intro pid outcome
    cases outcome with
    | ok r =>
      simp only [App.delete_photo]
      repeat' split
      all_goals rfl
    | error e => rfl
  · intro s pid cid cname ctxOk
    simp only [App.update_photo_collection]
    repeat' split
    all_goals rfl

/-- C2 counterexample: with collection "A" in the database-backed
registry, creating "a" — a name differing only in case — does not fail
with 409: the duplicate check is an exact-match query, so the creation
succeeds with 201 and the collection count rises to 2. -/
theorem case_variant_duplicate_not_rejected :
    (Routes.create_collection ⟨[⟨1, "A", "t0"⟩], []⟩ "a" "t1").1.status = 201 ∧
    (Routes.create_collection ⟨[⟨1, "A", "t0"⟩], []⟩ "a" "t1").2.collections.length = 2 :=
  ⟨rfl, rfl⟩

/-- C2 amended: duplicate handling differs between the two
implementations.  The store-derived implementation compares names under
`.lower()` and rejects a case-variant duplicate — but with HTTP 400,
not 409 — leaving the registry unchanged; the database-backed blueprint
uses 409 but only for an exact-match duplicate (also leaving the
collection table unchanged), so a name differing only in case is not
rejected there at all. -/
theorem duplicate_name_handling :
    (∀ (s : App.CloudState) (name now : String) (saveOk : Bool),
      pyStrip name ≠ "" →
      (∃ c ∈ s.collections, pyLower c.name = pyLower (pyStrip name)) →
      (App.create_collection s name now saveOk).1.status = 400 ∧
      (App.create_collection s name now saveOk).2 = s) ∧
    (∀ (s : Routes.DbState) (name now : String),
      pyStrip name ≠ "" →
      (∃ c ∈ s.collections, c.name = pyStrip name) →
      (Routes.create_collection s name now).1.status = 409 ∧
      (Routes.create_collection s name now).2 = s) := by
  constructor
  · intro s name now saveOk h1 h2
    have hb : (pyStrip name == "") = false := by
      simpa using h1
    have ha : s.collections.any
        (fun c => pyLower c.name == pyLower (pyStrip name)) = true := by
      rcases h2 with ⟨c, hc, he⟩
      exact List.any_eq_true.mpr ⟨c, hc, by simpa using he⟩
    simp [App.create_collection, hb, ha]
  · intro s name now h1 h2
    have hb : (pyStrip name == "") = false := by
      simpa using h1
    have hf : (s.collections.find? (fun c => c.name == pyStrip name)).isSome = true := by
      rcases h2 with ⟨c, hc, he⟩
      exact List.find?_isSome.mpr ⟨c, hc, by simpa using he⟩
    simp [Routes.create_collection, hb, hf]

/-- C2 witness: creating "a" when "A" exists is rejected with 400 and
leaves the registry unchanged in the store-derived implementation, and
re-creating the exact name "A" is rejected with 409 and leaves the
table unchanged in the database-backed one. -/
theorem duplicate_name_handling_witness :
    ((App.create_collection ⟨[⟨1, "A", "t0", 0⟩], []⟩ "a" "t1" true).1.status = 400 ∧
      (App.create_collection ⟨[⟨1, "A", "t0", 0⟩], []⟩ "a" "t1" true).2 =
        ⟨[⟨1, "A", "t0", 0⟩], []⟩) ∧
    ((Routes.create_collection ⟨[⟨1, "A", "t0"⟩], []⟩ "A" "t1").1.status = 409 ∧
      (Routes.create_collection ⟨[⟨1, "A", "t0"⟩], []⟩ "A" "t1").2 =
        ⟨[⟨1, "A", "t0"⟩], []⟩) :=
  ⟨duplicate_name_handling.1 ⟨[⟨1, "A", "t0", 0⟩], []⟩ "a" "t1" true
      (by decide) ⟨⟨1, "A", "t0", 0⟩, by simp, by decide⟩,
    duplicate_name_handling.2 ⟨[⟨1, "A", "t0"⟩], []⟩ "A" "t1"
      (by decide) ⟨⟨1, "A", "t0"⟩, by simp, by decide⟩⟩

/-- C6 counterexample: in the store-derived implementation, clearing a
photo's collection assignment (`collection_id: null`) succeeds, but
re-reading the photo through GET /api/photos yields `collection_id`
equal to the empty string — not a null/absent reference — because the
read path fills every missing context key with `''`. -/
theorem cleared_collection_reads_back_empty_string :
    (App.update_photo_collection
      ⟨[⟨3, "C", "t0", 0⟩], [⟨"p1", "u1", [("title", "T"), ("description", "D"),
        ("collection_id", "3"), ("collection_name", "C")], "t1", 10, 10, "jpg", 5⟩]⟩
      "p1" Routes.CidInput.cnull "" true).1.status = 200 ∧
    ((App.get_photos_from_cloudinary (App.update_photo_collection
      ⟨[⟨3, "C", "t0", 0⟩], [⟨"p1", "u1", [("title", "T"), ("description", "D"),
        ("collection_id", "3"), ("collection_name", "C")], "t1", 10, 10, "jpg", 5⟩]⟩
      "p1" Routes.CidInput.cnull "" true).2).map (fun p => p.collection_id)) = [""] ∧
    ((jItems (App.get_photos (App.update_photo_collection
      ⟨[⟨3, "C", "t0", 0⟩], [⟨"p1", "u1", [("title", "T"), ("description", "D"),
        ("collection_id", "3"), ("collection_name", "C")], "t1", 10, 10, "jpg", 5⟩]⟩
      "p1" Routes.CidInput.cnull "" true).2).body).map
      (fun j => jLookup j "collection_id")) = [some (jStr "")] ∧
    jStr "" ≠ jNull :=
  ⟨rfl, rfl, rfl, fun h => Json.noConfusion h⟩

/-- C6 amended: in the database-backed implementation, clearing a
photo's collection assignment (null, empty string and 0 alike) sets the
foreign key to `None`, and re-reading the photo through `to_dict`
yields a JSON null for both `collection_id` and `collection_name` —
never an empty-string placeholder.  The store-derived implementation
instead reads an unassigned photo's collection reference back as the
empty string. -/
theorem db_clear_reads_back_null (s : Routes.DbState) (pid : Nat)
    (h : (s.photos.find? (fun p => p.id == pid)).isSome = true) :
    (Routes.update_photo_collection s pid Routes.CidInput.cnull).1.status = 200 ∧
    ∀ p ∈ (Routes.update_photo_collection s pid Routes.CidInput.cnull).2.photos,
      p.id = pid →
      p.collection_id = none ∧
      jLookup (Routes.photoToDict
        (Routes.update_photo_collection s pid Routes.CidInput.cnull).2 p)
        "collection_id" = some jNull ∧
      jLookup (Routes.photoToDict
        (Routes.update_photo_collection s pid Routes.CidInput.cnull).2 p)
        "collection_name" = some jNull := by
  obtain ⟨p0, hp0⟩ := Option.isSome_iff_exists.mp h
  have hmain : ∀ p ∈ (Routes.update_photo_collection s pid
      Routes.CidInput.cnull).2.photos, p.id = pid → p.collection_id = none := by
    intro p hp hpid
    simp only [Routes.update_photo_collection, hp0] at hp
    simp only [Routes.CidInput.truthy] at hp
    rcases hfind2 : (s.photos.map (fun p =>
        if p.id == pid then { p with collection_id := none } else p)).find?
        (fun p => p.id == pid) with _ | q
    all_goals simp only [hfind2] at hp
    all_goals rcases List.mem_map.mp hp with ⟨q0, hq0, hq0e⟩
    all_goals by_cases hq : (q0.id == pid) = true
    all_goals simp only [hq, if_true, if_false, Bool.false_eq_true] at hq0e
    all_goals subst hq0e
    · rfl
    · exact absurd (by simpa using hpid) (by simpa using hq)
    · rfl
    · exact absurd (by simpa using hpid) (by simpa using hq)
  refine ⟨?_, ?_⟩
  · simp only [Routes.update_photo_collection, hp0, Routes.CidInput.truthy,
      Bool.false_eq_true, if_false]
    rcases hfind2 : (s.photos.map (fun p =>
        if p.id == pid then { p with collection_id := none } else p)).find?
        (fun p => p.id == pid) with _ | q
    · rw [hfind2]
    · rw [hfind2]
  · intro p hp hpid
    have hnone := hmain p hp hpid
    refine ⟨hnone, ?_, ?_⟩
    · simp [Routes.photoToDict, jLookup, hnone]
    · simp [Routes.photoToDict, jLookup, hnone]

/-- C6 witness: in a database holding collection 1 and one photo
assigned to it, clearing that photo's assignment returns 200 and the
photo reads back with a null collection reference. -/
theorem db_clear_reads_back_null_witness :
    (([⟨1, "T", "", "pub", "u", "su", "f.jpg", "jpg", 1, 1, 1, "t1",
        some 1⟩] : List Routes.Photo).find? (fun p => p.id == 1)).isSome = true ∧
    ((Routes.update_photo_collection ⟨[⟨1, "V", "t0"⟩],
      [⟨1, "T", "", "pub", "u", "su", "f.jpg", "jpg", 1, 1, 1, "t1", some 1⟩]⟩
      1 Routes.CidInput.cnull).1.status = 200 ∧
    ∀ p ∈ (Routes.update_photo_collection ⟨[⟨1, "V", "t0"⟩],
      [⟨1, "T", "", "pub", "u", "su", "f.jpg", "jpg", 1, 1, 1, "t1", some 1⟩]⟩
      1 Routes.CidInput.cnull).2.photos,
      p.id = 1 →
      p.collection_id = none ∧
      jLookup (Routes.photoToDict (Routes.update_photo_collection ⟨[⟨1, "V", "t0"⟩],
        [⟨1, "T", "", "pub", "u", "su", "f.jpg", "jpg", 1, 1, 1, "t1", some 1⟩]⟩
        1 Routes.CidInput.cnull).2 p) "collection_id" = some jNull ∧
      jLookup (Routes.photoToDict (Routes.update_photo_collection ⟨[⟨1, "V", "t0"⟩],
        [⟨1, "T", "", "pub", "u", "su", "f.jpg", "jpg", 1, 1, 1, "t1", some 1⟩]⟩
        1 Routes.CidInput.cnull).2 p) "collection_name" = some jNull) :=
  ⟨by decide,
    db_clear_reads_back_null ⟨[⟨1, "V", "t0"⟩],
      [⟨1, "T", "", "pub", "u", "su", "f.jpg", "jpg", 1, 1, 1, "t1", some 1⟩]⟩
      1 (by decide)⟩

/-- C3: the `photo_count` reported by the collections listing is
recomputed from the current photo set on every request — replacing the
stored `photo_count` field of every registry entry by an arbitrary
value leaves the response unchanged — and every listed entry carries
exactly the number of photos whose collection reference equals the
string of that entry's id. -/
theorem photo_count_always_recomputed (s : App.CloudState) (n : Nat) :
    App.get_collections ⟨s.collections.map
      (fun c => { c with photo_count := n }), s.resources⟩ =
      App.get_collections s ∧
    ∀ j ∈ jItems (App.get_collections s).body, ∃ c ∈ s.collections,
      jLookup j "id" = some (jNat c.id) ∧
      jLookup j "photo_count" = some (jNat (App.countByCollection s c.id)) := by
  constructor
  · simp only [App.get_collections, List.map_map]
    rfl
  · intro j hj
    simp only [App.get_collections, jItems] at hj
    rcases List.mem_map.mp hj with ⟨c, hc, rfl⟩
    exact ⟨c, hc, rfl, rfl⟩

/-- C1 amended: in the database-backed implementation, deleting an
existing collection returns 200, deletes no photo row (the photo table
keeps its length, unassigned photos survive unchanged and each
previously assigned photo survives with its reference cleared to
null), removes every collection row with that id, and the collection
no longer appears in a subsequent GET /collections listing —
cascade-to-null, never cascade-to-delete.  The store-derived
implementation offers no such guarantee: see the counterexample, where
a swallowed per-photo failure leaves a photo referencing the deleted
collection under a 200 response. -/
theorem delete_collection_cascades_to_null (s : Routes.DbState) (cid : Nat)
    (h : (s.collections.find? (fun c => c.id == cid)).isSome = true) :
    (Routes.delete_collection s cid).1.status = 200 ∧
    (Routes.delete_collection s cid).2.photos.length = s.photos.length ∧
    (∀ p ∈ (Routes.delete_collection s cid).2.photos,
      p.collection_id ≠ some cid) ∧
    (∀ p ∈ s.photos, p.collection_id ≠ some cid →
      p ∈ (Routes.delete_collection s cid).2.photos) ∧
    (∀ p ∈ s.photos, p.collection_id = some cid →
      { p with collection_id := none } ∈ (Routes.delete_collection s cid).2.photos) ∧
    (∀ c ∈ (Routes.delete_collection s cid).2.collections, c.id ≠ cid) ∧
    (∀ c ∈ s.collections, c.id ≠ cid →
      c ∈ (Routes.delete_collection s cid).2.collections) ∧
    (∀ j ∈ jItems ((jLookup (Routes.get_collections
        (Routes.delete_collection s cid).2).body "collections").getD jNull),
      jLookup j "id" ≠ some (jNat cid)) := by
  obtain ⟨c0, hc0⟩ := Option.isSome_iff_exists.mp h
  have hphotos : (Routes.delete_collection s cid).2.photos =
      s.photos.map (fun p => if p.collection_id == some cid then
        { p with collection_id := none } else p) := by
    simp only [Routes.delete_collection, hc0]
  have hcols : (Routes.delete_collection s cid).2.collections =
      s.collections.filter (fun c => !(c.id == cid)) := by
    simp only [Routes.delete_collection, hc0]
  have hcleared : ∀ p ∈ (Routes.delete_collection s cid).2.photos,
      p.collection_id ≠ some cid := by
    intro p hp
    rw [hphotos] at hp
    rcases List.mem_map.mp hp with ⟨q, hq, rfl⟩
    by_cases hqc : (q.collection_id == some cid) = true
    · simp [hqc]
    · simp only [Bool.not_eq_true] at hqc
      simp only [hqc, Bool.false_eq_true, if_false]
      simpa using hqc
  have hcolsne : ∀ c ∈ (Routes.delete_collection s cid).2.collections,
      c.id ≠ cid := by
    intro c hcmem
    rw [hcols] at hcmem
    have := (List.mem_filter.mp hcmem).2
    simpa using this
  refine ⟨?_, ?_, hcleared, ?_, ?_, hcolsne, ?_, ?_⟩
  · simp only [Routes.delete_collection, hc0]
  · rw [hphotos]; exact List.length_map _ _
  · intro p hp hne
    rw [hphotos]
    refine List.mem_map.mpr ⟨p, hp, ?_⟩
    have hb : (p.collection_id == some cid) = false := by simpa using hne
    simp [hb]
  · intro p hp heq
    rw [hphotos]
    refine List.mem_map.mpr ⟨p, hp, ?_⟩
    have hb : (p.collection_id == some cid) = true := by simpa using heq
    simp [hb]
  · intro c hcmem hne
    rw [hcols]
    exact List.mem_filter.mpr ⟨hcmem, by simpa using hne⟩
  · intro j hj
    have hb : jLookup (Routes.get_collections
        (Routes.delete_collection s cid).2).body "collections" =
        some (jArr ((Routes.delete_collection s cid).2.collections.map
          (Routes.collectionToDict (Routes.delete_collection s cid).2))) := rfl
    rw [hb] at hj
    simp only [Option.getD_some, jItems] at hj
    rcases List.mem_map.mp hj with ⟨c, hc, rfl⟩
    have hne := hcolsne c hc
    intro heq
    have hidj : jLookup (Routes.collectionToDict
        (Routes.delete_collection s cid).2 c) "id" = some (jNat c.id) := rfl
    rw [hidj] at heq
    have : c.id = cid := by
      have h2 := Option.some.inj heq
      exact jNat.inj h2
    exact hne this

/-- C1 witness: deleting collection 1 from a database holding two
collections and two photos (one assigned to collection 1, one
unassigned) returns 200, keeps both photo rows — the assigned one with
its reference nulled — and removes collection 1 from the table and the
listing. -/
theorem delete_collection_cascades_to_null_witness :
    (([⟨1, "Vacation", "t0"⟩, ⟨2, "B", "t0"⟩] :
        List Routes.Collection).find? (fun c => c.id == 1)).isSome = true ∧
    ((Routes.delete_collection ⟨[⟨1, "Vacation", "t0"⟩, ⟨2, "B", "t0"⟩],
      [⟨1, "T1", "", "pub1", "u1", "su1", "a.jpg", "jpg", 1, 1, 1, "t1", some 1⟩,
       ⟨2, "T2", "", "pub2", "u2", "su2", "b.jpg", "jpg", 1, 1, 1, "t1", none⟩]⟩
      1).1.status = 200 ∧
    (Routes.delete_collection ⟨[⟨1, "Vacation", "t0"⟩, ⟨2, "B", "t0"⟩],
      [⟨1, "T1", "", "pub1", "u1", "su1", "a.jpg", "jpg", 1, 1, 1, "t1", some 1⟩,
       ⟨2, "T2", "", "pub2", "u2", "su2", "b.jpg", "jpg", 1, 1, 1, "t1", none⟩]⟩
      1).2.photos.length =
      ([⟨1, "T1", "", "pub1", "u1", "su1", "a.jpg", "jpg", 1, 1, 1, "t1", some 1⟩,
        ⟨2, "T2", "", "pub2", "u2", "su2", "b.jpg", "jpg", 1, 1, 1, "t1", none⟩] :
        List Routes.Photo).length ∧
    (∀ p ∈ (Routes.delete_collection ⟨[⟨1, "Vacation", "t0"⟩, ⟨2, "B", "t0"⟩],
      [⟨1, "T1", "", "pub1", "u1", "su1", "a.jpg", "jpg", 1, 1, 1, "t1", some 1⟩,
       ⟨2, "T2", "", "pub2", "u2", "su2", "b.jpg", "jpg", 1, 1, 1, "t1", none⟩]⟩
      1).2.photos, p.collection_id ≠ some 1) ∧
    (∀ p ∈ ([⟨1, "T1", "", "pub1", "u1", "su1", "a.jpg", "jpg", 1, 1, 1, "t1", some 1⟩,
        ⟨2, "T2", "", "pub2", "u2", "su2", "b.jpg", "jpg", 1, 1, 1, "t1", none⟩] :
        List Routes.Photo), p.collection_id ≠ some 1 →
      p ∈ (Routes.delete_collection ⟨[⟨1, "Vacation", "t0"⟩, ⟨2, "B", "t0"⟩],
        [⟨1, "T1", "", "pub1", "u1", "su1", "a.jpg", "jpg", 1, 1, 1, "t1", some 1⟩,
         ⟨2, "T2", "", "pub2", "u2", "su2", "b.jpg", "jpg", 1, 1, 1, "t1", none⟩]⟩
        1).2.photos) ∧
    (∀ p ∈ ([⟨1, "T1", "", "pub1", "u1", "su1", "a.jpg", "jpg", 1, 1, 1, "t1", some 1⟩,
        ⟨2, "T2", "", "pub2", "u2", "su2", "b.jpg", "jpg", 1, 1, 1, "t1", none⟩] :
        List Routes.Photo), p.collection_id = some 1 →
      { p with collection_id := none } ∈
        (Routes.delete_collection ⟨[⟨1, "Vacation", "t0"⟩, ⟨2, "B", "t0"⟩],
          [⟨1, "T1", "", "pub1", "u1", "su1", "a.jpg", "jpg", 1, 1, 1, "t1", some 1⟩,
           ⟨2, "T2", "", "pub2", "u2", "su2", "b.jpg", "jpg", 1, 1, 1, "t1", none⟩]⟩
          1).2.photos) ∧
    (∀ c ∈ (Routes.delete_collection ⟨[⟨1, "Vacation", "t0"⟩, ⟨2, "B", "t0"⟩],
      [⟨1, "T1", "", "pub1", "u1", "su1", "a.jpg", "jpg", 1, 1, 1, "t1", some 1⟩,
       ⟨2, "T2", "", "pub2", "u2", "su2", "b.jpg", "jpg", 1, 1, 1, "t1", none⟩]⟩
      1).2.collections, c.id ≠ 1) ∧
    (∀ c ∈ ([⟨1, "Vacation", "t0"⟩, ⟨2, "B", "t0"⟩] : List Routes.Collection),
      c.id ≠ 1 →
      c ∈ (Routes.delete_collection ⟨[⟨1, "Vacation", "t0"⟩, ⟨2, "B", "t0"⟩],
        [⟨1, "T1", "", "pub1", "u1", "su1", "a.jpg", "jpg", 1, 1, 1, "t1", some 1⟩,
         ⟨2, "T2", "", "pub2", "u2", "su2", "b.jpg", "jpg", 1, 1, 1, "t1", none⟩]⟩
        1).2.collections) ∧
    (∀ j ∈ jItems ((jLookup (Routes.get_collections
        (Routes.delete_collection ⟨[⟨1, "Vacation", "t0"⟩, ⟨2, "B", "t0"⟩],
          [⟨1, "T1", "", "pub1", "u1", "su1", "a.jpg", "jpg", 1, 1, 1, "t1", some 1⟩,
           ⟨2, "T2", "", "pub2", "u2", "su2", "b.jpg", "jpg", 1, 1, 1, "t1", none⟩]⟩
          1).2).body "collections").getD jNull),
      jLookup j "id" ≠ some (jNat 1))) :=
  ⟨by decide,
    delete_collection_cascades_to_null ⟨[⟨1, "Vacation", "t0"⟩, ⟨2, "B", "t0"⟩],
      [⟨1, "T1", "", "pub1", "u1", "su1", "a.jpg", "jpg", 1, 1, 1, "t1", some 1⟩,
       ⟨2, "T2", "", "pub2", "u2", "su2", "b.jpg", "jpg", 1, 1, 1, "t1", none⟩]⟩
      1 (by decide)⟩

/-- C1 counterexample: in the store-derived implementation the
collection delete is not atomic and can dangle.  First scenario: the
per-photo context clear of the only assigned photo fails (the handler
catches the exception and continues), yet the request returns 200 with
the collection gone from the registry while the photo still references
the deleted collection — refuting the claim that after the delete all
N assigned photos have a null/absent reference.  Second scenario: the
photo clears but the registry save fails, so the request returns 500
with the photo's reference already cleared while the collection is
still present in the registry — the collection is not absent from
subsequent listings. -/
theorem app_delete_collection_can_dangle :
    (App.delete_collection ⟨[⟨1, "V", "t0", 0⟩],
      [⟨"p1", "u1", [("title", "T"), ("collection_id", "1"),
        ("collection_name", "V")], "t1", 10, 10, "jpg", 5⟩]⟩
      1 (fun _ => false) true).1.status = 200 ∧
    (App.delete_collection ⟨[⟨1, "V", "t0", 0⟩],
      [⟨"p1", "u1", [("title", "T"), ("collection_id", "1"),
        ("collection_name", "V")], "t1", 10, 10, "jpg", 5⟩]⟩
      1 (fun _ => false) true).2.collections = [] ∧
    ((App.get_photos_from_cloudinary (App.delete_collection ⟨[⟨1, "V", "t0", 0⟩],
      [⟨"p1", "u1", [("title", "T"), ("collection_id", "1"),
        ("collection_name", "V")], "t1", 10, 10, "jpg", 5⟩]⟩
      1 (fun _ => false) true).2).map (fun p => p.collection_id)) = ["1"] ∧
    App.cloudRefsValid (App.delete_collection ⟨[⟨1, "V", "t0", 0⟩],
      [⟨"p1", "u1", [("title", "T"), ("collection_id", "1"),
        ("collection_name", "V")], "t1", 10, 10, "jpg", 5⟩]⟩
      1 (fun _ => false) true).2 = false ∧
    (App.delete_collection ⟨[⟨1, "V", "t0", 0⟩],
      [⟨"p1", "u1", [("title", "T"), ("collection_id", "1"),
        ("collection_name", "V")], "t1", 10, 10, "jpg", 5⟩]⟩
      1 (fun _ => true) false).1.status = 500 ∧
    (App.delete_collection ⟨[⟨1, "V", "t0", 0⟩],
      [⟨"p1", "u1", [("title", "T"), ("collection_id", "1"),
        ("collection_name", "V")], "t1", 10, 10, "jpg", 5⟩]⟩
      1 (fun _ => true) false).2.collections = [⟨1, "V", "t0", 0⟩] ∧
    ((App.get_photos_from_cloudinary (App.delete_collection ⟨[⟨1, "V", "t0", 0⟩],
      [⟨"p1", "u1", [("title", "T"), ("collection_id", "1"),
        ("collection_name", "V")], "t1", 10, 10, "jpg", 5⟩]⟩
      1 (fun _ => true) false).2).map (fun p => p.collection_id)) = [""] :=
  ⟨rfl, rfl, rfl, rfl, rfl, rfl, rfl⟩

/-- Characterisation of `refsValid` as a quantified statement over the
photo and collection tables. -/
theorem refsValid_iff (s : Routes.DbState) :
    Routes.refsValid s = true ↔ ∀ p ∈ s.photos, ∀ cid,
      p.collection_id = some cid → ∃ c ∈ s.collections, c.id = cid := by
  unfold Routes.refsValid
  rw [List.all_eq_true]
  constructor
  · intro hall p hp cid hcid
    have h1 := hall p hp
    rw [hcid] at h1
    simp only [Option.all] at h1
    rcases List.any_eq_true.mp h1 with ⟨c, hc, hceq⟩
    exact ⟨c, hc, by simpa using hceq⟩
  · intro hfa p hp
    cases hcid : p.collection_id with
    | none => simp [Option.all]
    | some cid =>
      simp only [Option.all]
      rcases hfa p hp cid hcid with ⟨c, hc, hceq⟩
      exact List.any_eq_true.mpr ⟨c, hc, by simpa using hceq⟩

/-- Referential integrity is stable under shrinking the photo table. -/
theorem refsValid_of_photos_sub (cs : List Routes.Collection)
    (ps ps2 : List Routes.Photo) (hsub : ∀ p ∈ ps2, p ∈ ps)
    (h : Routes.refsValid ⟨cs, ps⟩ = true) :
    Routes.refsValid ⟨cs, ps2⟩ = true := by
  rw [refsValid_iff] at h ⊢
  intro p hp cid hcid
  exact h p (hsub p hp) cid hcid

/-- Referential integrity is stable under any change of the collection
table that keeps every referenced id present. -/
theorem refsValid_of_cols_grow (cs cs2 : List Routes.Collection)
    (ps : List Routes.Photo)
    (hgrow : ∀ cid, (∃ c ∈ cs, c.id = cid) → ∃ c ∈ cs2, c.id = cid)
    (h : Routes.refsValid ⟨cs, ps⟩ = true) :
    Routes.refsValid ⟨cs2, ps⟩ = true := by
  rw [refsValid_iff] at h ⊢
  intro p hp cid hcid
  exact hgrow cid (h p hp cid hcid)

/-- Every photo produced by the upload loop carries exactly the
validated collection id the loop was given. -/
theorem uploadLoop_collection_id (oracle : Nat → Option Routes.UploadResult)
    (titles descriptions : List String) (colId : Option Nat) (now : String) :
    ∀ (i nid : Nat) (fs : List Routes.UploadFile),
      ∀ p ∈ Routes.uploadLoop oracle titles descriptions colId now i nid fs,
        p.collection_id = colId := by
  intro i nid fs
  induction fs generalizing i nid with
  | nil => intro p hp; simp [Routes.uploadLoop] at hp
  | cons f fs ih =>
    intro p hp
    rw [Routes.uploadLoop] at hp
    by_cases hf : (f.filename == "") = true
    · rw [if_pos hf] at hp
      exact ih _ _ p hp
    · rw [if_neg hf] at hp
      cases ho : oracle i with
      | none =>
        rw [ho] at hp
        exact ih _ _ p hp
      | some res =>
        rw [ho] at hp
        rcases List.mem_cons.mp hp with rfl | hp2
        · rfl
        · exact ih _ _ p hp2

/-- C4 counterexample: the store-derived implementation's upload
handler performs no existence check on the collection it is given.
Starting from an empty store (trivially valid), uploading one photo
with `collection_id` 5 and a name succeeds and leaves the store with a
photo whose collection reference names no existing collection — a
dangling reference, violating the claimed invariant. -/
theorem upload_can_dangle_collection_reference :
    App.cloudRefsValid ⟨[], []⟩ = true ∧
    (App.upload_photos ⟨[], []⟩ (some [⟨"a.jpg"⟩]) "" "" "5" "X"
      (fun _ => some ⟨"su", 10, 10, "jpg", 5⟩) (fun _ => "p0")).1.status = 200 ∧
    App.cloudRefsValid (App.upload_photos ⟨[], []⟩ (some [⟨"a.jpg"⟩]) "" "" "5" "X"
      (fun _ => some ⟨"su", 10, 10, "jpg", 5⟩) (fun _ => "p0")).2 = false :=
  ⟨rfl, rfl, rfl⟩

/-- C4 amended: in the database-backed implementation every request —
collection create/rename/delete, upload, photo delete, single or bulk
collection reassignment, bulk delete — preserves referential integrity
of the photo table: a photo's collection reference, when non-null,
always names an existing collection, because assignment paths validate
the collection and collection deletion nulls the references first.
The store-derived implementation does not validate, and can dangle. -/
theorem db_operations_preserve_referential_integrity
    (op : Routes.DbOp) (s : Routes.DbState)
    (h : Routes.refsValid s = true) :
    Routes.refsValid (Routes.dbStep op s) = true := by
  cases op with
  | opCreateCollection name now =>
    simp only [Routes.dbStep, Routes.create_collection]
    split
    · exact h
    · split
      · exact h
      · exact refsValid_of_cols_grow s.collections _ s.photos
          (fun cid ⟨c0, hc0, he⟩ => ⟨c0, List.mem_append_left _ hc0, he⟩) h
  | opUpdateCollection cid name =>
    simp only [Routes.dbStep, Routes.update_collection]
    split
    · exact h
    · split
      · exact h
      · split
        · exact h
        · split
          all_goals
            refine refsValid_of_cols_grow s.collections _ s.photos
              (fun cid0 h2 => ?_) h
          all_goals
            obtain ⟨c0, hc0, he⟩ := h2
          all_goals
            refine ⟨if (c0.id == cid) = true then
              { c0 with name := pyStrip name } else c0,
              List.mem_map.mpr ⟨c0, hc0, rfl⟩, ?_⟩
          all_goals split
          all_goals exact he
  | opDeleteCollection cid =>
    simp only [Routes.dbStep, Routes.delete_collection]
    split
    · exact h
    · rw [refsValid_iff]
      intro p hp cid0 hcid0
      rcases List.mem_map.mp hp with ⟨q, hq, rfl⟩
      by_cases hqc : (q.collection_id == some cid) = true
      · rw [if_pos hqc] at hcid0
        exact absurd hcid0 (by simp)
      · rw [if_neg hqc] at hcid0
        obtain ⟨c0, hc0, he⟩ := (refsValid_iff s).mp h q hq cid0 hcid0
        refine ⟨c0, List.mem_filter.mpr ⟨hc0, ?_⟩, he⟩
        have hne : ¬ cid0 = cid := by
          intro hcc
          rw [hcid0, hcc] at hqc
          exact hqc (by simp)
        simp [he, hne]
  | opUploadPhotos files? titles descriptions cid oracle now =>
    simp only [Routes.dbStep, Routes.upload_photos]
    cases files? with
    | none => exact h
    | some files =>
      dsimp only
      by_cases hempty : (files.isEmpty || files.all (fun f => f.filename == "")) = true
      · rw [if_pos hempty]; exact h
      · rw [if_neg hempty]
        by_cases hguard : (cid.truthy && (if cid.truthy = true then
            s.collections.find? (fun c => c.id == cid.num) else none).isNone) = true
        · rw [if_pos hguard]; exact h
        · rw [if_neg hguard]
          rw [refsValid_iff]
          intro p hp cid0 hcid0
          rcases List.mem_append.mp hp with hold | hnew
          · exact (refsValid_iff s).mp h p hold cid0 hcid0
          · have hcol := uploadLoop_collection_id oracle titles descriptions
              ((if cid.truthy = true then
                s.collections.find? (fun c => c.id == cid.num)
               else none).map (fun c => c.id)) now _ _ files p hnew
            rw [hcol] at hcid0
            rcases Option.map_eq_some'.mp hcid0 with ⟨c0, ht, hf⟩
            by_cases htr : cid.truthy = true
            · rw [if_pos htr] at ht
              exact ⟨c0, List.mem_of_find?_eq_some ht, hf⟩
            · rw [if_neg htr] at ht
              exact absurd ht (by simp)
  | opDeletePhoto pid destroyOk =>
    simp only [Routes.dbStep, Routes.delete_photo]
    split
    · exact h
    · exact refsValid_of_photos_sub s.collections s.photos _
        (fun p hp => List.mem_of_mem_filter hp) h
  | opUpdatePhotoCollection pid cid =>
    simp only [Routes.dbStep, Routes.update_photo_collection]
    split
    · exact h
    · split
      · split
        · exact h
        · rename_i c0 hc0
          split
          all_goals
            rw [refsValid_iff]
            intro p hp cid0 hcid0
            rcases List.mem_map.mp hp with ⟨q, hq, rfl⟩
            by_cases hqp : (q.id == pid) = true
          · rw [if_pos hqp] at hcid0
            have hcnum : cid0 = cid.num := by simpa using hcid0.symm
            refine ⟨c0, List.mem_of_find?_eq_some hc0, ?_⟩
            have := List.find?_some hc0
            rw [hcnum]
            simpa using this
          · rw [if_neg hqp] at hcid0
            exact (refsValid_iff s).mp h q hq cid0 hcid0
          · rw [if_pos hqp] at hcid0
            have hcnum : cid0 = cid.num := by simpa using hcid0.symm
            refine ⟨c0, List.mem_of_find?_eq_some hc0, ?_⟩
            have := List.find?_some hc0
            rw [hcnum]
            simpa using this
          · rw [if_neg hqp] at hcid0
            exact (refsValid_iff s).mp h q hq cid0 hcid0
      · split
        all_goals
          rw [refsValid_iff]
          intro p hp cid0 hcid0
          rcases List.mem_map.mp hp with ⟨q, hq, rfl⟩
          by_cases hqp : (q.id == pid) = true
        · rw [if_pos hqp] at hcid0
          exact absurd hcid0 (by simp)
        · rw [if_neg hqp] at hcid0
          exact (refsValid_iff s).mp h q hq cid0 hcid0
        · rw [if_pos hqp] at hcid0
          exact absurd hcid0 (by simp)
        · rw [if_neg hqp] at hcid0
          exact (refsValid_iff s).mp h q hq cid0 hcid0
  | opBulkUpdate ids cid =>
    simp only [Routes.dbStep, Routes.bulk_update_photos]
    by_cases hempty : ids.isEmpty = true
    · rw [if_pos hempty]; exact h
    · rw [if_neg hempty]
      by_cases hguard : (cid.truthy && (if cid.truthy = true then
          s.collections.find? (fun c => c.id == cid.num) else none).isNone) = true
      · rw [if_pos hguard]; exact h
      · rw [if_neg hguard]
        rw [refsValid_iff]
        intro p hp cid0 hcid0
        rcases List.mem_map.mp hp with ⟨q, hq, rfl⟩
        by_cases hqm : (ids.contains q.id) = true
        · rw [if_pos hqm] at hcid0
          rcases Option.map_eq_some'.mp hcid0 with ⟨c0, ht, hf⟩
          by_cases htr : cid.truthy = true
          · rw [if_pos htr] at ht
            exact ⟨c0, List.mem_of_find?_eq_some ht, hf⟩
          · rw [if_neg htr] at ht
            exact absurd ht (by simp)
        · rw [if_neg hqm] at hcid0
          exact (refsValid_iff s).mp h q hq cid0 hcid0
  | opBulkDelete ids destroyOk =>
    simp only [Routes.dbStep, Routes.bulk_delete_photos]
    split
    · exact h
    · exact refsValid_of_photos_sub s.collections s.photos _
        (fun p hp => List.mem_of_mem_filter hp) h

/-- C4 witness: from a valid database with collection 1 and a photo
assigned to it, reassigning the photo to collection 1 through the
update endpoint keeps referential integrity. -/
theorem db_operations_preserve_referential_integrity_witness :
    Routes.refsValid ⟨[⟨1, "V", "t0"⟩],
      [⟨1, "T", "", "pub", "u", "su", "f.jpg", "jpg", 1, 1, 1, "t1", some 1⟩]⟩ = true ∧
    Routes.refsValid (Routes.dbStep
      (Routes.DbOp.opUpdatePhotoCollection 1 (Routes.CidInput.cnum 1))
      ⟨[⟨1, "V", "t0"⟩],
        [⟨1, "T", "", "pub", "u", "su", "f.jpg", "jpg", 1, 1, 1, "t1", some 1⟩]⟩) = true :=
  ⟨by decide,
    db_operations_preserve_referential_integrity
      (Routes.DbOp.opUpdatePhotoCollection 1 (Routes.CidInput.cnum 1))
      ⟨[⟨1, "V", "t0"⟩],
        [⟨1, "T", "", "pub", "u", "su", "f.jpg", "jpg", 1, 1, 1, "t1", some 1⟩]⟩
      (by decide)⟩

/-- The number of photo rows produced by the upload loop equals the
per-file success count. -/
theorem uploadLoop_length (oracle : Nat → Option Routes.UploadResult)
    (titles descriptions : List String) (colId : Option Nat) (now : String) :
    ∀ (i nid : Nat) (fs : List Routes.UploadFile),
      (Routes.uploadLoop oracle titles descriptions colId now i nid fs).length =
      Routes.countSucc oracle i fs := by
  intro i nid fs
  induction fs generalizing i nid with
  | nil => rfl
  | cons f fs ih =>
    rw [Routes.uploadLoop, Routes.countSucc]
    by_cases hf : (f.filename == "") = true
    · rw [if_pos hf, if_pos hf, ih]
      omega
    · rw [if_neg hf, if_neg hf]
      cases ho : oracle i with
      | none =>
        simp only [Option.isSome_none, Bool.false_eq_true, if_false]
        rw [ih]
        omega
      | some res =>
        simp only [Option.isSome_some, if_true]
        show (_ :: _).length = _
        rw [List.length_cons, ih]
        omega

/-- Every file whose own name is nonempty and whose own remote upload
succeeds gets a photo row out of the upload loop — regardless of what
happens to any other file in the batch. -/
theorem uploadLoop_success_mem (oracle : Nat → Option Routes.UploadResult)
    (titles descriptions : List String) (colId : Option Nat) (now : String) :
    ∀ (fs : List Routes.UploadFile) (i nid j : Nat) (hj : j < fs.length),
      ((fs.get ⟨j, hj⟩).filename == "") = false →
      ∀ res, oracle (i + j) = some res →
      ∃ p ∈ Routes.uploadLoop oracle titles descriptions colId now i nid fs,
        p.original_filename = (fs.get ⟨j, hj⟩).filename ∧
        p.cloudinary_public_id = res.public_id := by
  intro fs
  induction fs with
  | nil =>
    intro i nid j hj
    exact absurd hj (by simp)
  | cons f fs ih =>
    intro i nid j hj hne res hres
    cases j with
    | zero =>
      rw [Nat.add_zero] at hres
      rw [Routes.uploadLoop, if_neg (by simp_all), hres]
      exact ⟨_, List.mem_cons_self _ _, rfl, rfl⟩
    | succ j =>
      have hj2 : j < fs.length := by simpa using hj
      have hres2 : oracle ((i + 1) + j) = some res := by
        rw [show (i + 1) + j = i + (j + 1) by omega]
        exact hres
      rw [Routes.uploadLoop]
      by_cases hf : (f.filename == "") = true
      · rw [if_pos hf]
        exact ih (i + 1) nid j hj2 hne res hres2
      · rw [if_neg hf]
        cases ho : oracle i with
        | none =>
          exact ih (i + 1) nid j hj2 hne res hres2
        | some res0 =>
          obtain ⟨p, hp, h1, h2⟩ := ih (i + 1) (nid + 1) j hj2 hne res hres2
          exact ⟨p, List.mem_cons_of_mem _ hp, h1, h2⟩

/-- Every photo row produced by the upload loop originates from a file
of the batch whose own name is nonempty and whose own remote upload
succeeded — failed files leave no row. -/
theorem uploadLoop_mem_origin (oracle : Nat → Option Routes.UploadResult)
    (titles descriptions : List String) (colId : Option Nat) (now : String) :
    ∀ (fs : List Routes.UploadFile) (i nid : Nat),
      ∀ p ∈ Routes.uploadLoop oracle titles descriptions colId now i nid fs,
        ∃ j, ∃ (hj : j < fs.length),
          ((fs.get ⟨j, hj⟩).filename == "") = false ∧
          (oracle (i + j)).isSome = true ∧
          p.original_filename = (fs.get ⟨j, hj⟩).filename := by
  intro fs
  induction fs with
  | nil =>
    intro i nid p hp
    exact absurd hp (by simp [Routes.uploadLoop])
  | cons f fs ih =>
    intro i nid p hp
    rw [Routes.uploadLoop] at hp
    by_cases hf : (f.filename == "") = true
    · rw [if_pos hf] at hp
      obtain ⟨j, hj, ha, hb, hc⟩ := ih (i + 1) nid p hp
      refine ⟨j + 1, by simpa using Nat.succ_lt_succ hj, ha, ?_, hc⟩
      rw [show i + (j + 1) = (i + 1) + j by omega]
      exact hb
    · rw [if_neg hf] at hp
      cases ho : oracle i with
      | none =>
        rw [ho] at hp
        obtain ⟨j, hj, ha, hb, hc⟩ := ih (i + 1) nid p hp
        refine ⟨j + 1, by simpa using Nat.succ_lt_succ hj, ha, ?_, hc⟩
        rw [show i + (j + 1) = (i + 1) + j by omega]
        exact hb
      | some res =>
        rw [ho] at hp
        rcases List.mem_cons.mp hp with rfl | hp2
        · refine ⟨0, by simp, ?_, ?_, rfl⟩
          · simpa using hf
          · rw [Nat.add_zero, ho]; rfl
        · obtain ⟨j, hj, ha, hb, hc⟩ := ih (i + 1) (nid + 1) p hp2
          refine ⟨j + 1, by simpa using Nat.succ_lt_succ hj, ha, ?_, hc⟩
          rw [show i + (j + 1) = (i + 1) + j by omega]
          exact hb

/-- C5 counterexample: uploading the single file a.jpg (which succeeds)
and uploading the batch a.jpg, b.jpg in which b.jpg's remote upload
fails produce literally identical responses and database states: the
response reports only the success count and the succeeded photos, so it
cannot report which files failed, nor even that any file failed. -/
theorem upload_response_hides_failed_files :
    Routes.upload_photos ⟨[], []⟩ (some [⟨"a.jpg"⟩]) [] []
      Routes.CidInput.cnull
      (fun i => if i == 0 then some ⟨"p", "u", "su", "jpg", 1, 1, 1⟩ else none)
      "t" =
    Routes.upload_photos ⟨[], []⟩ (some [⟨"a.jpg"⟩, ⟨"b.jpg"⟩]) [] []
      Routes.CidInput.cnull
      (fun i => if i == 0 then some ⟨"p", "u", "su", "jpg", 1, 1, 1⟩ else none)
      "t" := rfl

/-- C5 amended: in a multi-file upload each file is processed
independently — a failure on file i does not abort files i+1..n: every
file with a nonempty name whose own remote upload succeeds is recorded,
the database gains exactly one row per success and none for a failed
file, and the response reports the success count.  It does not report
which files failed. -/
theorem upload_processes_files_independently (s : Routes.DbState)
    (files : List Routes.UploadFile) (titles descriptions : List String)
    (oracle : Nat → Option Routes.UploadResult) (now : String)
    (hne : (files.isEmpty || files.all (fun f => f.filename == "")) = false) :
    (Routes.upload_photos s (some files) titles descriptions
      Routes.CidInput.cnull oracle now).1.status = 200 ∧
    (Routes.upload_photos s (some files) titles descriptions
      Routes.CidInput.cnull oracle now).2.photos.length =
      s.photos.length + Routes.countSucc oracle 0 files ∧
    (∀ j, ∀ (hj : j < files.length),
      ((files.get ⟨j, hj⟩).filename == "") = false →
      ∀ res, oracle j = some res →
      ∃ p ∈ (Routes.upload_photos s (some files) titles descriptions
          Routes.CidInput.cnull oracle now).2.photos,
        p.original_filename = (files.get ⟨j, hj⟩).filename ∧
        p.cloudinary_public_id = res.public_id) ∧
    (∀ p ∈ (Routes.upload_photos s (some files) titles descriptions
        Routes.CidInput.cnull oracle now).2.photos,
      p ∈ s.photos ∨ ∃ j, ∃ (hj : j < files.length),
        (oracle j).isSome = true ∧
        p.original_filename = (files.get ⟨j, hj⟩).filename) ∧
    jLookup (Routes.upload_photos s (some files) titles descriptions
      Routes.CidInput.cnull oracle now).1.body "success" = some (jBool true) ∧
    jLookup (Routes.upload_photos s (some files) titles descriptions
      Routes.CidInput.cnull oracle now).1.body "message" =
      some (jStr ("Successfully uploaded " ++
        toString (Routes.countSucc oracle 0 files) ++ " photos")) := by
  have hstate : (Routes.upload_photos s (some files) titles descriptions
      Routes.CidInput.cnull oracle now).2 =
      ⟨s.collections, s.photos ++ Routes.uploadLoop oracle titles descriptions
        none now 0 (Routes.nextPhotoId s.photos) files⟩ := by
    rw [Routes.upload_photos]
    rw [if_neg (by simp [hne])]
    rfl
  have hresp : (Routes.upload_photos s (some files) titles descriptions
      Routes.CidInput.cnull oracle now).1 =
      ⟨200, jObj [("success", jBool true),
        ("message", jStr ("Successfully uploaded " ++
          toString (Routes.uploadLoop oracle titles descriptions none now 0
            (Routes.nextPhotoId s.photos) files).length ++ " photos")),
        ("photos", jArr ((Routes.uploadLoop oracle titles descriptions none now 0
          (Routes.nextPhotoId s.photos) files).map
            (Routes.photoToDict ⟨s.collections, s.photos ++
              Routes.uploadLoop oracle titles descriptions none now 0
                (Routes.nextPhotoId s.photos) files⟩)))]⟩ := by
    rw [Routes.upload_photos]
    rw [if_neg (by simp [hne])]
    rfl
  refine ⟨?_, ?_, ?_, ?_, ?_, ?_⟩
  · rw [hresp]
  · rw [hstate]
    show (s.photos ++ _).length = _
    rw [List.length_append, uploadLoop_length]
  · intro j hj hne2 res hres
    rw [hstate]
    have hres2 : oracle (0 + j) = some res := by rwa [Nat.zero_add]
    obtain ⟨p, hp, h1, h2⟩ := uploadLoop_success_mem oracle titles descriptions
      none now files 0 (Routes.nextPhotoId s.photos) j hj hne2 res hres2
    exact ⟨p, List.mem_append_right _ hp, h1, h2⟩
  · intro p hp
    rw [hstate] at hp
    rcases List.mem_append.mp hp with hold | hnew
    · exact Or.inl hold
    · obtain ⟨j, hj, _, hb, hc⟩ := uploadLoop_mem_origin oracle titles
        descriptions none now files 0 (Routes.nextPhotoId s.photos) p hnew
      rw [Nat.zero_add] at hb
      exact Or.inr ⟨j, hj, hb, hc⟩
  · rw [hresp]; rfl
  · rw [hresp]
    show some (jStr _) = some (jStr _)
    rw [uploadLoop_length]

/-- C5 witness: a two-file batch in which the second upload fails
returns 200 with success count 1, and the database gains exactly the
record of the first file. -/
theorem upload_processes_files_independently_witness :
    (([⟨"a.jpg"⟩, ⟨"b.jpg"⟩] : List Routes.UploadFile).isEmpty ||
      ([⟨"a.jpg"⟩, ⟨"b.jpg"⟩] : List Routes.UploadFile).all
        (fun f => f.filename == "")) = false ∧
    ((Routes.upload_photos ⟨[], []⟩ (some [⟨"a.jpg"⟩, ⟨"b.jpg"⟩]) [] []
      Routes.CidInput.cnull
      (fun i => if i == 0 then some ⟨"p", "u", "su", "jpg", 1, 1, 1⟩ else none)
      "t").1.status = 200 ∧
    (Routes.upload_photos ⟨[], []⟩ (some [⟨"a.jpg"⟩, ⟨"b.jpg"⟩]) [] []
      Routes.CidInput.cnull
      (fun i => if i == 0 then some ⟨"p", "u", "su", "jpg", 1, 1, 1⟩ else none)
      "t").2.photos.length =
      ([] : List Routes.Photo).length +
        Routes.countSucc
          (fun i => if i == 0 then some ⟨"p", "u", "su", "jpg", 1, 1, 1⟩ else none)
          0 [⟨"a.jpg"⟩, ⟨"b.jpg"⟩] ∧
    (∀ j, ∀ (hj : j < ([⟨"a.jpg"⟩, ⟨"b.jpg"⟩] : List Routes.UploadFile).length),
      ((([⟨"a.jpg"⟩, ⟨"b.jpg"⟩] : List Routes.UploadFile).get ⟨j, hj⟩).filename
        == "") = false →
      ∀ res, (fun i => if i == 0 then
          some (⟨"p", "u", "su", "jpg", 1, 1, 1⟩ : Routes.UploadResult)
        else none) j = some res →
      ∃ p ∈ (Routes.upload_photos ⟨[], []⟩ (some [⟨"a.jpg"⟩, ⟨"b.jpg"⟩]) [] []
          Routes.CidInput.cnull
          (fun i => if i == 0 then some ⟨"p", "u", "su", "jpg", 1, 1, 1⟩ else none)
          "t").2.photos,
        p.original_filename =
          (([⟨"a.jpg"⟩, ⟨"b.jpg"⟩] : List Routes.UploadFile).get ⟨j, hj⟩).filename ∧
        p.cloudinary_public_id = res.public_id) ∧
    (∀ p ∈ (Routes.upload_photos ⟨[], []⟩ (some [⟨"a.jpg"⟩, ⟨"b.jpg"⟩]) [] []
        Routes.CidInput.cnull
        (fun i => if i == 0 then some ⟨"p", "u", "su", "jpg", 1, 1, 1⟩ else none)
        "t").2.photos,
      p ∈ ([] : List Routes.Photo) ∨
        ∃ j, ∃ (hj : j < ([⟨"a.jpg"⟩, ⟨"b.jpg"⟩] : List Routes.UploadFile).length),
          ((fun i => if i == 0 then
              some (⟨"p", "u", "su", "jpg", 1, 1, 1⟩ : Routes.UploadResult)
            else none) j).isSome = true ∧
          p.original_filename =
            (([⟨"a.jpg"⟩, ⟨"b.jpg"⟩] : List Routes.UploadFile).get ⟨j, hj⟩).filename) ∧
    jLookup (Routes.upload_photos ⟨[], []⟩ (some [⟨"a.jpg"⟩, ⟨"b.jpg"⟩]) [] []
      Routes.CidInput.cnull
      (fun i => if i == 0 then some ⟨"p", "u", "su", "jpg", 1, 1, 1⟩ else none)
      "t").1.body "success" = some (jBool true) ∧
    jLookup (Routes.upload_photos ⟨[], []⟩ (some [⟨"a.jpg"⟩, ⟨"b.jpg"⟩]) [] []
      Routes.CidInput.cnull
      (fun i => if i == 0 then some ⟨"p", "u", "su", "jpg", 1, 1, 1⟩ else none)
      "t").1.body "message" =
      some (jStr ("Successfully uploaded " ++
        toString (Routes.countSucc
          (fun i => if i == 0 then some ⟨"p", "u", "su", "jpg", 1, 1, 1⟩ else none)
          0 [⟨"a.jpg"⟩, ⟨"b.jpg"⟩]) ++ " photos"))) :=
  ⟨by decide,
    upload_processes_files_independently ⟨[], []⟩ [⟨"a.jpg"⟩, ⟨"b.jpg"⟩] [] []
      (fun i => if i == 0 then some ⟨"p", "u", "su", "jpg", 1, 1, 1⟩ else none)
      "t" (by decide)⟩

/-- C7: the bulk endpoints of the database-backed implementation treat
every element of the id set independently — each photo row's fate is a
pointwise function of its own id's membership in the request, a remote
destroy failure on one element affects neither the other elements nor
the response — and the aggregate response carries only a success flag,
a message and a count (`updated_count` / `deleted_count`), never a
per-item status list. -/
theorem bulk_operations_independent_and_report_count
    (s : Routes.DbState) (ids : List Nat) (cid : Nat)
    (destroyOk : Nat → Bool)
    (hne : ids.isEmpty = false) (hcid0 : cid ≠ 0)
    (hfound : (s.collections.find? (fun c => c.id == cid)).isSome = true) :
    (Routes.bulk_update_photos s ids (Routes.CidInput.cnum cid)).1.body =
      jObj [("success", jBool true),
            ("message", jStr ("Successfully updated " ++
              toString (s.photos.filter (fun p => ids.contains p.id)).length ++
              " photos")),
            ("updated_count", jNat (s.photos.filter
              (fun p => ids.contains p.id)).length)] ∧
    (Routes.bulk_update_photos s ids (Routes.CidInput.cnum cid)).2.photos =
      s.photos.map (fun p => if ids.contains p.id then
        { p with collection_id := some cid } else p) ∧
    (Routes.bulk_update_photos s ids Routes.CidInput.cnull).2.photos =
      s.photos.map (fun p => if ids.contains p.id then
        { p with collection_id := none } else p) ∧
    Routes.bulk_delete_photos s ids destroyOk =
      Routes.bulk_delete_photos s ids (fun _ => true) ∧
    (Routes.bulk_delete_photos s ids destroyOk).2.photos =
      s.photos.filter (fun p => !(ids.contains p.id)) ∧
    (Routes.bulk_delete_photos s ids destroyOk).1.body =
      jObj [("success", jBool true),
            ("message", jStr ("Successfully deleted " ++
              toString (s.photos.filter (fun p => ids.contains p.id)).length ++
              " photos")),
            ("deleted_count", jNat (s.photos.filter
              (fun p => ids.contains p.id)).length)] := by
  obtain ⟨c0, hc0⟩ := Option.isSome_iff_exists.mp hfound
  have hceq : c0.id = cid := by simpa using List.find?_some hc0
  have htr : (Routes.CidInput.cnum cid).truthy = true := by
    simp [Routes.CidInput.truthy, hcid0]
  have hnum : (Routes.CidInput.cnum cid).num = cid := rfl
  refine ⟨?_, ?_, ?_, rfl, ?_, ?_⟩
  · rw [Routes.bulk_update_photos, if_neg (by simp [hne]),
      if_neg (by rw [if_pos htr, hnum, hc0]; simp)]
  · rw [Routes.bulk_update_photos, if_neg (by simp [hne]),
      if_neg (by rw [if_pos htr, hnum, hc0]; simp)]
    show s.photos.map _ = s.photos.map _
    refine List.map_congr_left (fun p _ => ?_)
    rw [if_pos htr, hnum, hc0]
    rw [show Option.map (fun c => c.id)
      (some c0) = some c0.id from rfl, hceq]
  · rw [Routes.bulk_update_photos, if_neg (by simp [hne])]
    rw [if_neg (by simp [Routes.CidInput.truthy])]
    rfl
  · rw [Routes.bulk_delete_photos, if_neg (by simp [hne])]
  · rw [Routes.bulk_delete_photos, if_neg (by simp [hne])]

/-- C7 witness: bulk-reassigning photos 1 and 2 to collection 1 and
bulk-deleting them, in a database with three photos, updates and
deletes exactly the matching rows, with failing remote destroys
changing nothing, and reports counts. -/
theorem bulk_operations_independent_and_report_count_witness :
    ([1, 2] : List Nat).isEmpty = false ∧ (1 : Nat) ≠ 0 ∧
    (([⟨1, "V", "t0"⟩] : List Routes.Collection).find?
      (fun c => c.id == 1)).isSome = true ∧
    ((Routes.bulk_update_photos ⟨[⟨1, "V", "t0"⟩],
      [⟨1, "T1", "", "pa", "u", "su", "a.jpg", "jpg", 1, 1, 1, "t1", some 1⟩,
       ⟨2, "T2", "", "pb", "u", "su", "b.jpg", "jpg", 1, 1, 1, "t1", none⟩,
       ⟨3, "T3", "", "pc", "u", "su", "c.jpg", "jpg", 1, 1, 1, "t1", none⟩]⟩
      [1, 2] (Routes.CidInput.cnum 1)).1.body =
      jObj [("success", jBool true),
            ("message", jStr ("Successfully updated " ++
              toString (([⟨1, "T1", "", "pa", "u", "su", "a.jpg", "jpg", 1, 1, 1, "t1", some 1⟩,
                ⟨2, "T2", "", "pb", "u", "su", "b.jpg", "jpg", 1, 1, 1, "t1", none⟩,
                ⟨3, "T3", "", "pc", "u", "su", "c.jpg", "jpg", 1, 1, 1, "t1", none⟩] :
                List Routes.Photo).filter
                (fun p => ([1, 2] : List Nat).contains p.id)).length ++
              " photos")),
            ("updated_count", jNat (([⟨1, "T1", "", "pa", "u", "su", "a.jpg", "jpg", 1, 1, 1, "t1", some 1⟩,
              ⟨2, "T2", "", "pb", "u", "su", "b.jpg", "jpg", 1, 1, 1, "t1", none⟩,
              ⟨3, "T3", "", "pc", "u", "su", "c.jpg", "jpg", 1, 1, 1, "t1", none⟩] :
              List Routes.Photo).filter
              (fun p => ([1, 2] : List Nat).contains p.id)).length)] ∧
    (Routes.bulk_update_photos ⟨[⟨1, "V", "t0"⟩],
      [⟨1, "T1", "", "pa", "u", "su", "a.jpg", "jpg", 1, 1, 1, "t1", some 1⟩,
       ⟨2, "T2", "", "pb", "u", "su", "b.jpg", "jpg", 1, 1, 1, "t1", none⟩,
       ⟨3, "T3", "", "pc", "u", "su", "c.jpg", "jpg", 1, 1, 1, "t1", none⟩]⟩
      [1, 2] (Routes.CidInput.cnum 1)).2.photos =
      ([⟨1, "T1", "", "pa", "u", "su", "a.jpg", "jpg", 1, 1, 1, "t1", some 1⟩,
        ⟨2, "T2", "", "pb", "u", "su", "b.jpg", "jpg", 1, 1, 1, "t1", none⟩,
        ⟨3, "T3", "", "pc", "u", "su", "c.jpg", "jpg", 1, 1, 1, "t1", none⟩] :
        List Routes.Photo).map (fun p => if ([1, 2] : List Nat).contains p.id then
          { p with collection_id := some 1 } else p) ∧
    (Routes.bulk_update_photos ⟨[⟨1, "V", "t0"⟩],
      [⟨1, "T1", "", "pa", "u", "su", "a.jpg", "jpg", 1, 1, 1, "t1", some 1⟩,
       ⟨2, "T2", "", "pb", "u", "su", "b.jpg", "jpg", 1, 1, 1, "t1", none⟩,
       ⟨3, "T3", "", "pc", "u", "su", "c.jpg", "jpg", 1, 1, 1, "t1", none⟩]⟩
      [1, 2] Routes.CidInput.cnull).2.photos =
      ([⟨1, "T1", "", "pa", "u", "su", "a.jpg", "jpg", 1, 1, 1, "t1", some 1⟩,
        ⟨2, "T2", "", "pb", "u", "su", "b.jpg", "jpg", 1, 1, 1, "t1", none⟩,
        ⟨3, "T3", "", "pc", "u", "su", "c.jpg", "jpg", 1, 1, 1, "t1", none⟩] :
        List Routes.Photo).map (fun p => if ([1, 2] : List Nat).contains p.id then
          { p with collection_id := none } else p) ∧
    Routes.bulk_delete_photos ⟨[⟨1, "V", "t0"⟩],
      [⟨1, "T1", "", "pa", "u", "su", "a.jpg", "jpg", 1, 1, 1, "t1", some 1⟩,
       ⟨2, "T2", "", "pb", "u", "su", "b.jpg", "jpg", 1, 1, 1, "t1", none⟩,
       ⟨3, "T3", "", "pc", "u", "su", "c.jpg", "jpg", 1, 1, 1, "t1", none⟩]⟩
      [1, 2] (fun _ => false) =
      Routes.bulk_delete_photos ⟨[⟨1, "V", "t0"⟩],
        [⟨1, "T1", "", "pa", "u", "su", "a.jpg", "jpg", 1, 1, 1, "t1", some 1⟩,
         ⟨2, "T2", "", "pb", "u", "su", "b.jpg", "jpg", 1, 1, 1, "t1", none⟩,
         ⟨3, "T3", "", "pc", "u", "su", "c.jpg", "jpg", 1, 1, 1, "t1", none⟩]⟩
        [1, 2] (fun _ => true) ∧
    (Routes.bulk_delete_photos ⟨[⟨1, "V", "t0"⟩],
      [⟨1, "T1", "", "pa", "u", "su", "a.jpg", "jpg", 1, 1, 1, "t1", some 1⟩,
       ⟨2, "T2", "", "pb", "u", "su", "b.jpg", "jpg", 1, 1, 1, "t1", none⟩,
       ⟨3, "T3", "", "pc", "u", "su", "c.jpg", "jpg", 1, 1, 1, "t1", none⟩]⟩
      [1, 2] (fun _ => false)).2.photos =
      ([⟨1, "T1", "", "pa", "u", "su", "a.jpg", "jpg", 1, 1, 1, "t1", some 1⟩,
        ⟨2, "T2", "", "pb", "u", "su", "b.jpg", "jpg", 1, 1, 1, "t1", none⟩,
        ⟨3, "T3", "", "pc", "u", "su", "c.jpg", "jpg", 1, 1, 1, "t1", none⟩] :
        List Routes.Photo).filter
        (fun p => !(([1, 2] : List Nat).contains p.id)) ∧
    (Routes.bulk_delete_photos ⟨[⟨1, "V", "t0"⟩],
      [⟨1, "T1", "", "pa", "u", "su", "a.jpg", "jpg", 1, 1, 1, "t1", some 1⟩,
       ⟨2, "T2", "", "pb", "u", "su", "b.jpg", "jpg", 1, 1, 1, "t1", none⟩,
       ⟨3, "T3", "", "pc", "u", "su", "c.jpg", "jpg", 1, 1, 1, "t1", none⟩]⟩
      [1, 2] (fun _ => false)).1.body =
      jObj [("success", jBool true),
            ("message", jStr ("Successfully deleted " ++
              toString (([⟨1, "T1", "", "pa", "u", "su", "a.jpg", "jpg", 1, 1, 1, "t1", some 1⟩,
                ⟨2, "T2", "", "pb", "u", "su", "b.jpg", "jpg", 1, 1, 1, "t1", none⟩,
                ⟨3, "T3", "", "pc", "u", "su", "c.jpg", "jpg", 1, 1, 1, "t1", none⟩] :
                List Routes.Photo).filter
                (fun p => ([1, 2] : List Nat).contains p.id)).length ++
              " photos")),
            ("deleted_count", jNat (([⟨1, "T1", "", "pa", "u", "su", "a.jpg", "jpg", 1, 1, 1, "t1", some 1⟩,
              ⟨2, "T2", "", "pb", "u", "su", "b.jpg", "jpg", 1, 1, 1, "t1", none⟩,
              ⟨3, "T3", "", "pc", "u", "su", "c.jpg", "jpg", 1, 1, 1, "t1", none⟩] :
              List Routes.Photo).filter
              (fun p => ([1, 2] : List Nat).contains p.id)).length)]) :=
  ⟨by decide, by decide, by decide,
    bulk_operations_independent_and_report_count
      ⟨[⟨1, "V", "t0"⟩],
        [⟨1, "T1", "", "pa", "u", "su", "a.jpg", "jpg", 1, 1, 1, "t1", some 1⟩,
         ⟨2, "T2", "", "pb", "u", "su", "b.jpg", "jpg", 1, 1, 1, "t1", none⟩,
         ⟨3, "T3", "", "pc", "u", "su", "c.jpg", "jpg", 1, 1, 1, "t1", none⟩]⟩
      [1, 2] 1 (fun _ => false) (by decide) (by decide) (by decide)⟩
